import Mathlib

/-!
# libjcat, GnuPG engine (`libjcat/jcat-engine-gpg.c`)

A shallow embedding of the four operations of the GnuPG engine

* `jcat_engine_gpg_add_public_key`   (the trust importer),
* `jcat_engine_gpg_setup`,
* `jcat_engine_gpg_add_public_keys`  (loading of trust material),
* `jcat_engine_gpg_check_signature` and `jcat_engine_gpg_verify_data`,

followed by the properties proved about them.

Conventions of the embedding.

* gpgme, libgpg-error and the GLib file functions are external collaborators.
  They are a record `Env W` of functions over an arbitrary world state `W`
  (library state, keyring, file system); nothing is assumed about them.
* A C function that returns a value and may set `GError **error` returns an
  `Out`: the return value, the error that was set (if any), the world after
  the call, the list of external calls it made, in order, and the lines it
  passed to `g_debug`.
* Pointers are `Option Nat` handles (`none` is `NULL`).
* `gpgme_error_t` is a `Nat`; `unsigned long` and `gint64` are 64 bits wide.
* Every `g_set_error` of the file uses the domain `G_IO_ERROR`; `g_dir_open`
  reports errors of GLib's own domain.
-/

namespace Jcat

/-! ## GLib errors -/

/-- The codes of `GIOErrorEnum` that the engine uses. -/
inductive GIOErrorEnum where
  | G_IO_ERROR_FAILED
  | G_IO_ERROR_INVALID_DATA
  | G_IO_ERROR_NOT_SUPPORTED
  deriving DecidableEq, Repr

/-- Domain and code of a `GError`: the engine sets `G_IO_ERROR` errors,
`g_dir_open` sets errors of the domain `G_FILE_ERROR`. -/
inductive GErrorCode where
  | G_IO_ERROR (code : GIOErrorEnum)
  | G_FILE_ERROR (code : Nat)
  deriving DecidableEq, Repr

/-- A `GError`: domain and code, and the formatted message. -/
structure GError where
  code : GErrorCode
  message : String
  deriving DecidableEq, Repr

/-! ## libgpg-error and gpgme values -/

/-- Error code `GPG_ERR_NO_ERROR` of libgpg-error. -/
def GPG_ERR_NO_ERROR : Nat := 0
/-- Error code `GPG_ERR_BAD_SIGNATURE` of libgpg-error. -/
def GPG_ERR_BAD_SIGNATURE : Nat := 8
/-- Error code `GPG_ERR_NO_PUBKEY` of libgpg-error. -/
def GPG_ERR_NO_PUBKEY : Nat := 9
/-- Error code `GPG_ERR_CERT_REVOKED` of libgpg-error. -/
def GPG_ERR_CERT_REVOKED : Nat := 94
/-- Error code `GPG_ERR_KEY_EXPIRED` of libgpg-error. -/
def GPG_ERR_KEY_EXPIRED : Nat := 153
/-- Error code `GPG_ERR_SIG_EXPIRED` of libgpg-error. -/
def GPG_ERR_SIG_EXPIRED : Nat := 154
/-- Mask `GPG_ERR_CODE_MASK` of libgpg-error: the low 16 bits of an error
value are its code, the bits above them name the error source. -/
def GPG_ERR_CODE_MASK : Nat := 65535

/-- The inline function `gpgme_err_code`: `err & GPG_ERR_CODE_MASK`. -/
def gpgme_err_code (err : Nat) : Nat := err % (GPG_ERR_CODE_MASK + 1)

/-- The protocols of `gpgme_protocol_t` (the engine only names OpenPGP). -/
inductive gpgme_protocol_t where
  | GPGME_PROTOCOL_OpenPGP
  | GPGME_PROTOCOL_CMS
  deriving DecidableEq, Repr

/-- One node of the list `gpgme_verify_result_t.signatures`, with the fields
the engine reads. -/
structure gpgme_signature where
  fpr : String
  status : Nat
  timestamp : Nat
  deriving DecidableEq, Repr

/-- One node of the list `gpgme_import_result_t.imports`. -/
structure gpgme_import_status where
  fpr : String
  status : Nat
  result : Nat
  deriving DecidableEq, Repr

/-- The record `gpgme_import_result_t`, with the fields the engine reads. -/
structure gpgme_import_result where
  imports : List gpgme_import_status
  imported : Int
  unchanged : Int
  not_imported : Int
  deriving DecidableEq, Repr

/-- The cast `(gint64) s->timestamp` of a 64-bit `unsigned long`. -/
def to_gint64 (t : Nat) : Int :=
  if t % 2 ^ 64 < 2 ^ 63 then ((t % 2 ^ 64 : Nat) : Int) else ((t % 2 ^ 64 : Nat) : Int) - 2 ^ 64

/-! ## External calls -/

/-- An external call made by the engine, with what it was given and what it
answered. -/
inductive Call where
  | gpg_err_init (rc : Nat)
  | gpgme_check_version
  | gpgme_new (rc : Nat)
  | gpgme_set_protocol (proto : gpgme_protocol_t) (rc : Nat)
  | g_mkdir_with_parents (pathname : String) (mode : Nat) (rc : Int)
  | gpgme_ctx_set_engine_info (proto : gpgme_protocol_t) (home_dir : String) (rc : Nat)
  | gpgme_set_armor (yes : Bool)
  | gpgme_data_new_from_file (fname : String) (rc : Nat)
  | gpgme_op_import (rc : Nat)
  | gpgme_op_import_result
  | g_dir_open (path : String)
  | gpgme_data_new_from_mem (buffer : List UInt8) (rc : Nat)
  | gpgme_op_verify (rc : Nat)
  | gpgme_op_verify_result
  deriving DecidableEq, Repr

/-- The external collaborators, over a world state `W`. A function that
creates an object answers its return code, the new handle and the new world. -/
structure Env (W : Type) where
  gpgme_strerror : Nat → String
  g_build_filename : String → String → String
  gpg_err_init : W → Nat × W
  gpgme_check_version : W → String × W
  gpgme_new : W → Nat × Nat × W
  gpgme_set_protocol : W → Nat → gpgme_protocol_t → Nat × W
  g_mkdir_with_parents : W → String → Nat → Int × W
  gpgme_ctx_set_engine_info : W → Nat → gpgme_protocol_t → String → Nat × W
  gpgme_set_armor : W → Nat → Bool → W
  gpgme_data_new_from_file : W → String → Nat × Nat × W
  gpgme_op_import : W → Option Nat → Nat → Nat × W
  gpgme_op_import_result : W → Option Nat → gpgme_import_result
  g_dir_open : W → String → Except GError (List String)
  gpgme_data_new_from_mem : W → List UInt8 → Nat × Nat × W
  gpgme_op_verify : W → Option Nat → Nat → Nat → Nat × W
  gpgme_op_verify_result : W → Option Nat → Option (List gpgme_signature)

/-- What a call of an engine function produced. -/
structure Out (W : Type) (α : Type) where
  ret : α
  error : Option GError
  world : W
  calls : List Call
  debug : List String

/-! ## The engine -/

/-- The instance `struct _JcatEngineGpg`: the gpgme context, and of the parent
instance the keyring path. -/
structure JcatEngineGpg where
  keyring_path : String
  ctx : Option Nat
  deriving DecidableEq, Repr

/-- Modelled from the spec: `jcat_engine_get_keyring_path`, of the parent class
`JcatEngine`, is not part of the source file; it answers the keyring path that
the engine was constructed with. -/
def jcat_engine_get_keyring_path (engine : JcatEngineGpg) : String :=
  engine.keyring_path

/-- The object `JcatResult` as `jcat_engine_gpg_verify_data` constructs it. -/
structure JcatResult where
  engine : JcatEngineGpg
  timestamp : Int
  authority : String
  deriving DecidableEq, Repr

/-- The function `jcat_engine_gpg_check_signature`: the return value and the
error that was set. -/
def jcat_engine_gpg_check_signature (signature : gpgme_signature) : Bool × Option GError :=
  if gpgme_err_code signature.status = GPG_ERR_NO_ERROR then
    (true, none)
  else if gpgme_err_code signature.status = GPG_ERR_SIG_EXPIRED
      ∨ gpgme_err_code signature.status = GPG_ERR_KEY_EXPIRED then
    (false, some ⟨.G_IO_ERROR .G_IO_ERROR_INVALID_DATA,
      "valid signature '" ++ signature.fpr ++ "' has expired"⟩)
  else if gpgme_err_code signature.status = GPG_ERR_CERT_REVOKED then
    (false, some ⟨.G_IO_ERROR .G_IO_ERROR_INVALID_DATA,
      "valid signature '" ++ signature.fpr ++ "' has been revoked"⟩)
  else if gpgme_err_code signature.status = GPG_ERR_BAD_SIGNATURE then
    (false, some ⟨.G_IO_ERROR .G_IO_ERROR_INVALID_DATA,
      "'" ++ signature.fpr ++ "' is not a valid signature"⟩)
  else if gpgme_err_code signature.status = GPG_ERR_NO_PUBKEY then
    (false, some ⟨.G_IO_ERROR .G_IO_ERROR_INVALID_DATA,
      "Could not check signature '" ++ signature.fpr ++ "' as no public key"⟩)
  else
    (false, some ⟨.G_IO_ERROR .G_IO_ERROR_INVALID_DATA,
      "gpgme failed to verify signature '" ++ signature.fpr ++ "'"⟩)

variable {W : Type}

/-- The function `jcat_engine_gpg_add_public_key`, the trust importer. -/
def jcat_engine_gpg_add_public_key (env : Env W) (self : JcatEngineGpg) (w : W)
    (filename : String) : Out W Bool :=
  let dbg0 := "Adding GnuPG public key " ++ filename
  let d := env.gpgme_data_new_from_file w filename
  if d.1 ≠ GPG_ERR_NO_ERROR then
    { ret := false
      error := some ⟨.G_IO_ERROR .G_IO_ERROR_FAILED,
        "failed to load " ++ filename ++ ": " ++ env.gpgme_strerror d.1⟩
      world := d.2.2
      calls := [.gpgme_data_new_from_file filename d.1]
      debug := [dbg0] }
  else
    let i := env.gpgme_op_import d.2.2 self.ctx d.2.1
    if i.1 ≠ GPG_ERR_NO_ERROR then
      { ret := false
        error := some ⟨.G_IO_ERROR .G_IO_ERROR_FAILED,
          "failed to import " ++ filename ++ ": " ++ env.gpgme_strerror i.1⟩
        world := i.2
        calls := [.gpgme_data_new_from_file filename d.1, .gpgme_op_import i.1]
        debug := [dbg0] }
    else
      let result := env.gpgme_op_import_result i.2 self.ctx
      let dbg1 := result.imports.map fun s =>
        "importing key " ++ s.fpr ++ " [" ++ toString s.status ++ "] "
          ++ env.gpgme_strerror s.result
      if result.imported = 0 ∧ result.unchanged = 0 then
        { ret := false
          error := some ⟨.G_IO_ERROR .G_IO_ERROR_FAILED, "key import failed " ++ filename⟩
          world := i.2
          calls := [.gpgme_data_new_from_file filename d.1, .gpgme_op_import i.1,
            .gpgme_op_import_result]
          debug := dbg0 :: dbg1 ++
            ["imported: " ++ toString result.imported ++ ", unchanged: "
              ++ toString result.unchanged ++ ", not_imported: "
              ++ toString result.not_imported] }
      else
        { ret := true
          error := none
          world := i.2
          calls := [.gpgme_data_new_from_file filename d.1, .gpgme_op_import i.1,
            .gpgme_op_import_result]
          debug := dbg0 :: dbg1 }

/-- The function `jcat_engine_gpg_setup`: the return value comes with the
engine instance as the call leaves it. -/
def jcat_engine_gpg_setup (env : Env W) (self : JcatEngineGpg) (w : W) :
    Out W (Bool × JcatEngineGpg) :=
  if self.ctx ≠ none then
    { ret := (true, self), error := none, world := w, calls := [], debug := [] }
  else
    let a := env.gpg_err_init w
    if a.1 ≠ GPG_ERR_NO_ERROR then
      { ret := (false, self)
        error := some ⟨.G_IO_ERROR .G_IO_ERROR_FAILED,
          "failed to init: " ++ env.gpgme_strerror a.1⟩
        world := a.2
        calls := [.gpg_err_init a.1]
        debug := [] }
    else
      let v := env.gpgme_check_version a.2
      let dbg0 := "using gpgme v" ++ v.1
      let n := env.gpgme_new v.2
      if n.1 ≠ GPG_ERR_NO_ERROR then
        { ret := (false, self)
          error := some ⟨.G_IO_ERROR .G_IO_ERROR_FAILED,
            "failed to create context: " ++ env.gpgme_strerror n.1⟩
          world := n.2.2
          calls := [.gpg_err_init a.1, .gpgme_check_version, .gpgme_new n.1]
          debug := [dbg0] }
      else
        let self1 : JcatEngineGpg := { self with ctx := some n.2.1 }
        let p := env.gpgme_set_protocol n.2.2 n.2.1 .GPGME_PROTOCOL_OpenPGP
        if p.1 ≠ GPG_ERR_NO_ERROR then
          { ret := (false, self1)
            error := some ⟨.G_IO_ERROR .G_IO_ERROR_FAILED,
              "failed to set protocol: " ++ env.gpgme_strerror p.1⟩
            world := p.2
            calls := [.gpg_err_init a.1, .gpgme_check_version, .gpgme_new n.1,
              .gpgme_set_protocol .GPGME_PROTOCOL_OpenPGP p.1]
            debug := [dbg0] }
        else
          let gpg_home := env.g_build_filename (jcat_engine_get_keyring_path self1) "gnupg"
          let m := env.g_mkdir_with_parents p.2 gpg_home 0o700
          if m.1 < 0 then
            { ret := (false, self1)
              error := some ⟨.G_IO_ERROR .G_IO_ERROR_FAILED, "failed to create " ++ gpg_home⟩
              world := m.2
              calls := [.gpg_err_init a.1, .gpgme_check_version, .gpgme_new n.1,
                .gpgme_set_protocol .GPGME_PROTOCOL_OpenPGP p.1,
                .g_mkdir_with_parents gpg_home 0o700 m.1]
              debug := [dbg0] }
          else
            let dbg1 := "Using engine at " ++ gpg_home
            let e := env.gpgme_ctx_set_engine_info m.2 n.2.1 .GPGME_PROTOCOL_OpenPGP gpg_home
            if e.1 ≠ GPG_ERR_NO_ERROR then
              { ret := (false, self1)
                error := some ⟨.G_IO_ERROR .G_IO_ERROR_FAILED,
                  "failed to set protocol: " ++ env.gpgme_strerror e.1⟩
                world := e.2
                calls := [.gpg_err_init a.1, .gpgme_check_version, .gpgme_new n.1,
                  .gpgme_set_protocol .GPGME_PROTOCOL_OpenPGP p.1,
                  .g_mkdir_with_parents gpg_home 0o700 m.1,
                  .gpgme_ctx_set_engine_info .GPGME_PROTOCOL_OpenPGP gpg_home e.1]
                debug := [dbg0, dbg1] }
            else
              { ret := (true, self1)
                error := none
                world := env.gpgme_set_armor e.2 n.2.1 true
                calls := [.gpg_err_init a.1, .gpgme_check_version, .gpgme_new n.1,
                  .gpgme_set_protocol .GPGME_PROTOCOL_OpenPGP p.1,
                  .g_mkdir_with_parents gpg_home 0o700 m.1,
                  .gpgme_ctx_set_engine_info .GPGME_PROTOCOL_OpenPGP gpg_home e.1,
                  .gpgme_set_armor true]
                debug := [dbg0, dbg1] }

/-- The function `g_str_has_prefix` of GLib. -/
def g_str_has_prefix (str pre : String) : Bool :=
  pre.data.isPrefixOf str.data

/-- The `while` loop of `jcat_engine_gpg_add_public_keys` over the names that
`g_dir_read_name` delivers. -/
def add_public_keys_loop (env : Env W) (self : JcatEngineGpg) (path : String) :
    List String → W → Out W Bool
  | [], w => { ret := true, error := none, world := w, calls := [], debug := [] }
  | fn_tmp :: rest, w =>
    if ! g_str_has_prefix fn_tmp "GPG-KEY-" then
      add_public_keys_loop env self path rest w
    else
      let path_tmp := env.g_build_filename path fn_tmp
      let o := jcat_engine_gpg_add_public_key env self w path_tmp
      if !o.ret then
        o
      else
        let r := add_public_keys_loop env self path rest o.world
        { r with calls := o.calls ++ r.calls, debug := o.debug ++ r.debug }

/-- The function `jcat_engine_gpg_add_public_keys`. -/
def jcat_engine_gpg_add_public_keys (env : Env W) (self : JcatEngineGpg) (w : W)
    (path : String) : Out W Bool :=
  match env.g_dir_open w path with
  | .error e =>
    { ret := false, error := some e, world := w, calls := [.g_dir_open path], debug := [] }
  | .ok names =>
    let r := add_public_keys_loop env self path names w
    { r with calls := .g_dir_open path :: r.calls }

/-- The state in which the `for` loop of `jcat_engine_gpg_verify_data` ends:
whether it ran to the end of the list (`completed`) or left through
`return NULL`, the error that the rejecting signature set, the newest
timestamp and its authority, and the debug lines. -/
structure LoopState where
  completed : Bool
  error : Option GError
  timestamp_newest : Int
  authority_newest : String
  debug : List String
  deriving DecidableEq, Repr

/-- The `for` loop of `jcat_engine_gpg_verify_data` over the signatures of the
result record. -/
def verify_data_loop : List gpgme_signature → Int → String → LoopState
  | [], timestamp_newest, authority_newest =>
    { completed := true, error := none, timestamp_newest := timestamp_newest,
      authority_newest := authority_newest, debug := [] }
  | s :: rest, timestamp_newest, authority_newest =>
    let dbg := "returned signature fingerprint " ++ s.fpr
    if !(jcat_engine_gpg_check_signature s).1 then
      { completed := false, error := (jcat_engine_gpg_check_signature s).2,
        timestamp_newest := timestamp_newest, authority_newest := authority_newest,
        debug := [dbg] }
    else
      let r :=
        if to_gint64 s.timestamp > timestamp_newest then
          verify_data_loop rest (to_gint64 s.timestamp) s.fpr
        else
          verify_data_loop rest timestamp_newest authority_newest
      { r with debug := dbg :: r.debug }

/-- The function `jcat_engine_gpg_verify_data`. The value of the flag
`JCAT_VERIFY_FLAG_USE_CLIENT_CERT`, declared in a header that is not part of
the source file, is the argument `use_client_cert`. -/
def jcat_engine_gpg_verify_data (env : Env W) (use_client_cert : Nat) (self : JcatEngineGpg)
    (w : W) (blob blob_signature : List UInt8) (flags : Nat) : Out W (Option JcatResult) :=
  if flags &&& use_client_cert ≠ 0 then
    { ret := none
      error := some ⟨.G_IO_ERROR .G_IO_ERROR_NOT_SUPPORTED, "no GPG client certificate support"⟩
      world := w
      calls := []
      debug := [] }
  else
    let d := env.gpgme_data_new_from_mem w blob
    if d.1 ≠ GPG_ERR_NO_ERROR then
      { ret := none
        error := some ⟨.G_IO_ERROR .G_IO_ERROR_FAILED,
          "failed to load data: " ++ env.gpgme_strerror d.1⟩
        world := d.2.2
        calls := [.gpgme_data_new_from_mem blob d.1]
        debug := [] }
    else
      let g := env.gpgme_data_new_from_mem d.2.2 blob_signature
      if g.1 ≠ GPG_ERR_NO_ERROR then
        { ret := none
          error := some ⟨.G_IO_ERROR .G_IO_ERROR_FAILED,
            "failed to load signature: " ++ env.gpgme_strerror g.1⟩
          world := g.2.2
          calls := [.gpgme_data_new_from_mem blob d.1,
            .gpgme_data_new_from_mem blob_signature g.1]
          debug := [] }
      else
        let v := env.gpgme_op_verify g.2.2 self.ctx g.2.1 d.2.1
        if v.1 ≠ GPG_ERR_NO_ERROR then
          { ret := none
            error := some ⟨.G_IO_ERROR .G_IO_ERROR_FAILED,
              "failed to verify data: " ++ env.gpgme_strerror v.1⟩
            world := v.2
            calls := [.gpgme_data_new_from_mem blob d.1,
              .gpgme_data_new_from_mem blob_signature g.1, .gpgme_op_verify v.1]
            debug := [] }
        else
          match env.gpgme_op_verify_result v.2 self.ctx with
          | none =>
            { ret := none
              error := some ⟨.G_IO_ERROR .G_IO_ERROR_FAILED, "no result record from libgpgme"⟩
              world := v.2
              calls := [.gpgme_data_new_from_mem blob d.1,
                .gpgme_data_new_from_mem blob_signature g.1, .gpgme_op_verify v.1,
                .gpgme_op_verify_result]
              debug := [] }
          | some signatures =>
            let l := verify_data_loop signatures 0 ""
            { ret :=
                if !l.completed then none
                else some { engine := self, timestamp := l.timestamp_newest,
                            authority := l.authority_newest }
              error := l.error
              world := v.2
              calls := [.gpgme_data_new_from_mem blob d.1,
                .gpgme_data_new_from_mem blob_signature g.1, .gpgme_op_verify v.1,
                .gpgme_op_verify_result]
              debug := l.debug }


/-! ## Definitions used to state the properties -/

/-- The oracle answers the calls of `jcat_engine_gpg_verify_data` without an
error, and its result record carries the signatures `J`. -/
def OracleAnswers (env : Env W) (self : JcatEngineGpg) (w : W)
    (blob blob_signature : List UInt8) (J : List gpgme_signature) : Prop :=
  (env.gpgme_data_new_from_mem w blob).1 = GPG_ERR_NO_ERROR
  ∧ (env.gpgme_data_new_from_mem (env.gpgme_data_new_from_mem w blob).2.2 blob_signature).1
      = GPG_ERR_NO_ERROR
  ∧ (env.gpgme_op_verify
        (env.gpgme_data_new_from_mem (env.gpgme_data_new_from_mem w blob).2.2 blob_signature).2.2
        self.ctx
        (env.gpgme_data_new_from_mem (env.gpgme_data_new_from_mem w blob).2.2 blob_signature).2.1
        (env.gpgme_data_new_from_mem w blob).2.1).1 = GPG_ERR_NO_ERROR
  ∧ env.gpgme_op_verify_result
      (env.gpgme_op_verify
        (env.gpgme_data_new_from_mem (env.gpgme_data_new_from_mem w blob).2.2 blob_signature).2.2
        self.ctx
        (env.gpgme_data_new_from_mem (env.gpgme_data_new_from_mem w blob).2.2 blob_signature).2.1
        (env.gpgme_data_new_from_mem w blob).2.1).2
      self.ctx = some J

/-- The greatest timestamp of `J`, and 0 for the empty list: `max(0, max J)`. -/
def max_timestamp : List gpgme_signature → Nat
  | [] => 0
  | s :: rest => max s.timestamp (max_timestamp rest)

/-- The fingerprint of the first signature of `J`, in sequence order, whose
timestamp is `m`; the empty string when there is none. -/
def first_fpr_with_timestamp (m : Nat) : List gpgme_signature → String
  | [] => ""
  | s :: rest => if s.timestamp = m then s.fpr else first_fpr_with_timestamp m rest

/-- The authority that the claims name: the fingerprint of the first signature
with the greatest timestamp when that timestamp is greater than 0, else the
empty string. -/
def newest_authority (J : List gpgme_signature) : String :=
  if 0 < max_timestamp J then first_fpr_with_timestamp (max_timestamp J) J else ""

/-- The return code of `gpgme_data_new_from_file` in a run of the importer. -/
def load_rc (env : Env W) (w : W) (filename : String) : Nat :=
  (env.gpgme_data_new_from_file w filename).1

/-- The return code of `gpgme_op_import` in a run of the importer that got to
it. -/
def import_rc (env : Env W) (self : JcatEngineGpg) (w : W) (filename : String) : Nat :=
  (env.gpgme_op_import (env.gpgme_data_new_from_file w filename).2.2 self.ctx
    (env.gpgme_data_new_from_file w filename).2.1).1

/-- The import result that `gpgme_op_import_result` answers in a run of the
importer that got to it. -/
def import_result (env : Env W) (self : JcatEngineGpg) (w : W) (filename : String) :
    gpgme_import_result :=
  env.gpgme_op_import_result
    (env.gpgme_op_import (env.gpgme_data_new_from_file w filename).2.2 self.ctx
      (env.gpgme_data_new_from_file w filename).2.1).2 self.ctx

/-- The trust files of a directory: the entries whose name starts with
`GPG-KEY-`, in enumeration order, as the paths handed to the importer. -/
def trust_files (env : Env W) (path : String) (names : List String) : List String :=
  (names.filter fun fn => g_str_has_prefix fn "GPG-KEY-").map (env.g_build_filename path)

/-- The world after the importer has run on `files`, one after the other. -/
def world_after_imports (env : Env W) (self : JcatEngineGpg) : W → List String → W
  | w, [] => w
  | w, f :: fs =>
    world_after_imports env self (jcat_engine_gpg_add_public_key env self w f).world fs

/-- Every import of `files`, run one after the other from the world `w`,
returns `TRUE`. -/
def imports_succeed (env : Env W) (self : JcatEngineGpg) : W → List String → Bool
  | _, [] => true
  | w, f :: fs =>
    (jcat_engine_gpg_add_public_key env self w f).ret
      && imports_succeed env self (jcat_engine_gpg_add_public_key env self w f).world fs

/-- The files that were handed to the importer, read off the external calls:
each run of the importer starts with one `gpgme_data_new_from_file`. -/
def imported_files : List Call → List String
  | [] => []
  | .gpgme_data_new_from_file fname _ :: rest => fname :: imported_files rest
  | _ :: rest => imported_files rest

/-- The outcome of a setup call that does nothing: it returns `TRUE`, leaves
the engine and the world as they are, sets no error and makes no external
call. -/
def setup_nothing (self : JcatEngineGpg) (w : W) : Out W (Bool × JcatEngineGpg) :=
  { ret := (true, self), error := none, world := w, calls := [], debug := [] }

/-- Successive calls of `jcat_engine_gpg_setup` on one engine; each call meets
its own environment and world. -/
def setup_calls : JcatEngineGpg → List (Env W × W) → List (Out W (Bool × JcatEngineGpg))
  | _, [] => []
  | self, p :: rest =>
    jcat_engine_gpg_setup p.1 self p.2 :: setup_calls (jcat_engine_gpg_setup p.1 self p.2).ret.2 rest

/-- All external calls of a list of outcomes, in order. -/
def all_calls {α : Type} : List (Out W α) → List Call
  | [] => []
  | o :: rest => o.calls ++ all_calls rest

/-- The code of the error that a call set, if it set one. -/
def error_kind {α : Type} (o : Out W α) : Option GErrorCode :=
  o.error.map fun e => e.code

/-! ## A concrete environment

The world is a counter of the keys in the keyring. `gpgme_set_protocol` answers
`protocol_rc`, a key file loads unless its name ends in `bad`, an import adds
`imported` keys, and the result record of a verification is `record`. -/

/-- A small environment with scripted answers. -/
def scripted_env (protocol_rc : Nat) (imported : Int)
    (record : Option (List gpgme_signature)) : Env Nat where
  gpgme_strerror := fun rc => if rc = 0 then "Success" else "General error"
  g_build_filename := fun a b => a ++ "/" ++ b
  gpg_err_init := fun w => (0, w)
  gpgme_check_version := fun w => ("1.13.1", w)
  gpgme_new := fun w => (0, 1, w)
  gpgme_set_protocol := fun w _ _ => (protocol_rc, w)
  g_mkdir_with_parents := fun w _ _ => (0, w)
  gpgme_ctx_set_engine_info := fun w _ _ _ => (0, w)
  gpgme_set_armor := fun w _ _ => w
  gpgme_data_new_from_file := fun w fname =>
    (if "bad".data.isSuffixOf fname.data then 1 else 0, 2, w)
  gpgme_op_import := fun w _ _ => (0, w + imported.toNat)
  gpgme_op_import_result := fun _ _ => ⟨[⟨"3FC6B804410ED084", 1, 0⟩], imported, 0, 0⟩
  g_dir_open := fun _ _ => .ok ["GPG-KEY-a", "README", "GPG-KEY-bad", "GPG-KEY-c"]
  gpgme_data_new_from_mem := fun w _ => (0, 3, w)
  gpgme_op_verify := fun w _ _ _ => (0, w)
  gpgme_op_verify_result := fun _ _ => record

/-- The environment `scripted_env 0 1 none` with a keyring directory that
cannot be created. -/
def unwritable_env : Env Nat :=
  { scripted_env 0 1 none with g_mkdir_with_parents := fun w _ _ => (-1, w) }

/-- An engine on which no setup call was made. -/
def fresh_engine : JcatEngineGpg := { keyring_path := "/var/lib/jcat", ctx := none }

/-- An engine after a successful setup in `scripted_env`. -/
def ready_engine : JcatEngineGpg := { keyring_path := "/var/lib/jcat", ctx := some 1 }

/-! # Properties -/

/-! ## The signature judgment evaluator -/

theorem infix_data_append (a f b : String) : f.data <:+: (a ++ f ++ b).data := by
  refine ⟨a.data, b.data, ?_⟩
  simp [String.data_append]

theorem check_signature_accept_iff (s : gpgme_signature) :
    (jcat_engine_gpg_check_signature s).1 = true
      ↔ gpgme_err_code s.status = GPG_ERR_NO_ERROR := by
  unfold jcat_engine_gpg_check_signature
  split_ifs <;> simp_all

theorem check_signature_error_isSome (s : gpgme_signature) :
    (jcat_engine_gpg_check_signature s).2.isSome = !(jcat_engine_gpg_check_signature s).1 := by
  unfold jcat_engine_gpg_check_signature
  split_ifs <;> rfl

theorem check_signature_error_kind (s : gpgme_signature) (e : GError)
    (h : (jcat_engine_gpg_check_signature s).2 = some e) :
    e.code = .G_IO_ERROR .G_IO_ERROR_INVALID_DATA ∧ s.fpr.data <:+: e.message.data := by
  unfold jcat_engine_gpg_check_signature at h
  split_ifs at h <;> simp only [Option.some.injEq, reduceCtorEq] at h <;> subst h <;>
    exact ⟨rfl, infix_data_append _ _ _⟩

/-- C2: `jcat_engine_gpg_check_signature` is a function of the status code of
the signature. It accepts exactly when the code is `GPG_ERR_NO_ERROR`; the codes
`GPG_ERR_SIG_EXPIRED` and `GPG_ERR_KEY_EXPIRED` give the expired rejection,
`GPG_ERR_CERT_REVOKED` the revoked one, `GPG_ERR_BAD_SIGNATURE` the
not-a-valid-signature one, `GPG_ERR_NO_PUBKEY` the no-public-key one and every
other code the generic one. An error is set exactly when the signature is
rejected, it has the code `G_IO_ERROR_INVALID_DATA`, and its message contains
the fingerprint of the signature. -/
theorem check_signature_table (s : gpgme_signature) :
    ((jcat_engine_gpg_check_signature s).1 = true
        ↔ gpgme_err_code s.status = GPG_ERR_NO_ERROR)
    ∧ ((jcat_engine_gpg_check_signature s).2.isSome = !(jcat_engine_gpg_check_signature s).1)
    ∧ (∀ e, (jcat_engine_gpg_check_signature s).2 = some e →
        e.code = .G_IO_ERROR .G_IO_ERROR_INVALID_DATA ∧ s.fpr.data <:+: e.message.data)
    ∧ jcat_engine_gpg_check_signature s =
        if gpgme_err_code s.status = GPG_ERR_NO_ERROR then (true, none)
        else (false, some ⟨.G_IO_ERROR .G_IO_ERROR_INVALID_DATA,
          if gpgme_err_code s.status = GPG_ERR_SIG_EXPIRED
              ∨ gpgme_err_code s.status = GPG_ERR_KEY_EXPIRED then
            "valid signature '" ++ s.fpr ++ "' has expired"
          else if gpgme_err_code s.status = GPG_ERR_CERT_REVOKED then
            "valid signature '" ++ s.fpr ++ "' has been revoked"
          else if gpgme_err_code s.status = GPG_ERR_BAD_SIGNATURE then
            "'" ++ s.fpr ++ "' is not a valid signature"
          else if gpgme_err_code s.status = GPG_ERR_NO_PUBKEY then
            "Could not check signature '" ++ s.fpr ++ "' as no public key"
          else
            "gpgme failed to verify signature '" ++ s.fpr ++ "'"⟩) := by
  refine ⟨check_signature_accept_iff s, check_signature_error_isSome s,
    fun e h => check_signature_error_kind s e h, ?_⟩
  unfold jcat_engine_gpg_check_signature
  split_ifs <;> rfl


/-! ## The loop over the signatures -/

theorem to_gint64_of_lt (t : Nat) (h : t < 2 ^ 63) : to_gint64 t = (t : Int) := by
  have h1 : t % 2 ^ 64 = t := Nat.mod_eq_of_lt (by omega)
  unfold to_gint64
  rw [h1, if_pos h]

theorem verify_data_loop_rejected (pre : List gpgme_signature) (s0 : gpgme_signature)
    (post : List gpgme_signature)
    (hpre : ∀ s ∈ pre, (jcat_engine_gpg_check_signature s).1 = true)
    (hs0 : (jcat_engine_gpg_check_signature s0).1 = false) (t : Int) (a : String) :
    (verify_data_loop (pre ++ s0 :: post) t a).completed = false
      ∧ (verify_data_loop (pre ++ s0 :: post) t a).error
          = (jcat_engine_gpg_check_signature s0).2 := by
  induction pre generalizing t a with
  | nil => simp [verify_data_loop, hs0]
  | cons s rest ih =>
    have hs : (jcat_engine_gpg_check_signature s).1 = true := hpre s (by simp)
    have hrest : ∀ x ∈ rest, (jcat_engine_gpg_check_signature x).1 = true :=
      fun x hx => hpre x (by simp [hx])
    simp only [List.cons_append, verify_data_loop, hs, Bool.not_true, Bool.false_eq_true,
      if_false]
    split_ifs
    · exact ih hrest _ _
    · exact ih hrest _ _

theorem verify_data_loop_completes (J : List gpgme_signature)
    (hacc : ∀ s ∈ J, (jcat_engine_gpg_check_signature s).1 = true) (t : Int) (a : String) :
    (verify_data_loop J t a).completed = true ∧ (verify_data_loop J t a).error = none := by
  induction J generalizing t a with
  | nil => simp [verify_data_loop]
  | cons x rest ih =>
    have hx : (jcat_engine_gpg_check_signature x).1 = true := hacc x (by simp)
    have hr : ∀ s ∈ rest, (jcat_engine_gpg_check_signature s).1 = true :=
      fun s hs => hacc s (by simp [hs])
    simp only [verify_data_loop, hx, Bool.not_true, Bool.false_eq_true, if_false]
    split_ifs
    · exact ih hr _ _
    · exact ih hr _ _

theorem verify_data_loop_accepted (J : List gpgme_signature)
    (hacc : ∀ s ∈ J, (jcat_engine_gpg_check_signature s).1 = true)
    (hts : ∀ s ∈ J, s.timestamp < 2 ^ 63) (t : Nat) (a : String) :
    (verify_data_loop J (t : Int) a).completed = true
      ∧ (verify_data_loop J (t : Int) a).error = none
      ∧ (verify_data_loop J (t : Int) a).timestamp_newest = ((max t (max_timestamp J) : Nat) : Int)
      ∧ (verify_data_loop J (t : Int) a).authority_newest
          = if t < max_timestamp J then first_fpr_with_timestamp (max_timestamp J) J else a := by
  induction J generalizing t a with
  | nil => simp [verify_data_loop, max_timestamp]
  | cons s rest ih =>
    have hs : (jcat_engine_gpg_check_signature s).1 = true := hacc s (by simp)
    have hrest : ∀ x ∈ rest, (jcat_engine_gpg_check_signature x).1 = true :=
      fun x hx => hacc x (by simp [hx])
    have htr : ∀ x ∈ rest, x.timestamp < 2 ^ 63 := fun x hx => hts x (by simp [hx])
    have hcast : to_gint64 s.timestamp = (s.timestamp : Int) :=
      to_gint64_of_lt _ (hts s (by simp))
    simp only [verify_data_loop, hs, Bool.not_true, Bool.false_eq_true, if_false, hcast,
      max_timestamp, first_fpr_with_timestamp]
    by_cases hgt : (s.timestamp : Int) > (t : Int)
    · have hgt' : t < s.timestamp := by exact_mod_cast hgt
      obtain ⟨h1, h2, h3, h4⟩ := ih hrest htr s.timestamp s.fpr
      rw [if_pos hgt]
      refine ⟨h1, h2, ?_, ?_⟩
      · rw [h3]; congr 1; omega
      · rw [h4]
        have hlt : t < max s.timestamp (max_timestamp rest) := by omega
        rw [if_pos hlt]
        by_cases hc : s.timestamp < max_timestamp rest
        · have hne : ¬ s.timestamp = max s.timestamp (max_timestamp rest) := by omega
          have hm : max s.timestamp (max_timestamp rest) = max_timestamp rest := by omega
          rw [if_pos hc, if_neg hne, hm]
        · have he : s.timestamp = max s.timestamp (max_timestamp rest) := by omega
          rw [if_neg hc, if_pos he]
    · have hle : s.timestamp ≤ t := by
        have : (s.timestamp : Int) ≤ (t : Int) := by omega
        exact_mod_cast this
      obtain ⟨h1, h2, h3, h4⟩ := ih hrest htr t a
      rw [if_neg hgt]
      refine ⟨h1, h2, ?_, ?_⟩
      · rw [h3]; congr 1; omega
      · rw [h4]
        by_cases hc : t < max_timestamp rest
        · have hlt : t < max s.timestamp (max_timestamp rest) := by omega
          have hne : ¬ s.timestamp = max s.timestamp (max_timestamp rest) := by omega
          have hm : max s.timestamp (max_timestamp rest) = max_timestamp rest := by omega
          rw [if_pos hc, if_pos hlt, if_neg hne, hm]
        · have hlt : ¬ t < max s.timestamp (max_timestamp rest) := by omega
          rw [if_neg hc, if_neg hlt]

/-- With a supported flag set and an oracle that answers with a result record,
the outcome of `jcat_engine_gpg_verify_data` is read off the loop. -/
theorem verify_data_of_answers (env : Env W) (use_client_cert : Nat) (self : JcatEngineGpg)
    (w : W) (blob blob_signature : List UInt8) (flags : Nat) (J : List gpgme_signature)
    (hflags : flags &&& use_client_cert = 0)
    (hans : OracleAnswers env self w blob blob_signature J) :
    (jcat_engine_gpg_verify_data env use_client_cert self w blob blob_signature flags).ret
        = (if !(verify_data_loop J 0 "").completed then none
           else some { engine := self, timestamp := (verify_data_loop J 0 "").timestamp_newest,
                       authority := (verify_data_loop J 0 "").authority_newest })
      ∧ (jcat_engine_gpg_verify_data env use_client_cert self w blob blob_signature flags).error
        = (verify_data_loop J 0 "").error := by
  obtain ⟨h1, h2, h3, h4⟩ := hans
  unfold jcat_engine_gpg_verify_data
  simp only [hflags, h1, h2, h3, h4, ne_eq, not_true_eq_false, if_false]
  exact ⟨trivial, trivial⟩

theorem exists_first_rejected (J : List gpgme_signature)
    (hrej : ∃ s ∈ J, (jcat_engine_gpg_check_signature s).1 = false) :
    ∃ pre s0 post, J = pre ++ s0 :: post
      ∧ (∀ s ∈ pre, (jcat_engine_gpg_check_signature s).1 = true)
      ∧ (jcat_engine_gpg_check_signature s0).1 = false := by
  induction J with
  | nil => obtain ⟨s, hs, _⟩ := hrej; simp at hs
  | cons x rest ih =>
    by_cases hx : (jcat_engine_gpg_check_signature x).1 = true
    · obtain ⟨s, hs, hsr⟩ := hrej
      have hmem : s ∈ rest := by
        rcases List.mem_cons.mp hs with h | h
        · subst h; rw [hx] at hsr; exact absurd hsr (by simp)
        · exact h
      obtain ⟨pre, s0, post, hJ, hpre, hs0⟩ := ih ⟨s, hmem, hsr⟩
      refine ⟨x :: pre, s0, post, by simp [hJ], ?_, hs0⟩
      intro y hy
      rcases List.mem_cons.mp hy with h | h
      · subst h; exact hx
      · exact hpre y h
    · exact ⟨[], x, rest, rfl, by simp, by simpa using hx⟩

/-! ## Data verification -/

/-- C1: when the flag set has no client-certificate bit and the oracle answers
with a result record whose signatures are `J`, and some signature of `J` is
rejected by `jcat_engine_gpg_check_signature`, then `J` splits at its first
rejected signature `s0` (all signatures before it are accepted), and
`jcat_engine_gpg_verify_data` returns no result and sets the error that the
evaluator set for `s0`: its code is `G_IO_ERROR_INVALID_DATA` and its message
contains the fingerprint of `s0`. Nothing is assumed about the other
signatures. Read the other way round, a result is returned only if every
signature is accepted (`verify_data_result_only_if_accepted` below). -/
theorem verify_data_rejects_first (env : Env W) (use_client_cert : Nat) (self : JcatEngineGpg)
    (w : W) (blob blob_signature : List UInt8) (flags : Nat) (J : List gpgme_signature)
    (hflags : flags &&& use_client_cert = 0)
    (hans : OracleAnswers env self w blob blob_signature J)
    (hrej : ∃ s ∈ J, (jcat_engine_gpg_check_signature s).1 = false) :
    ∃ pre s0 post, J = pre ++ s0 :: post
      ∧ (∀ s ∈ pre, (jcat_engine_gpg_check_signature s).1 = true)
      ∧ (jcat_engine_gpg_check_signature s0).1 = false
      ∧ (jcat_engine_gpg_verify_data env use_client_cert self w blob blob_signature flags).ret
          = none
      ∧ (jcat_engine_gpg_verify_data env use_client_cert self w blob blob_signature flags).error
          = (jcat_engine_gpg_check_signature s0).2
      ∧ ∃ e,
          (jcat_engine_gpg_verify_data env use_client_cert self w blob blob_signature flags).error
            = some e
          ∧ e.code = .G_IO_ERROR .G_IO_ERROR_INVALID_DATA
          ∧ s0.fpr.data <:+: e.message.data := by
  obtain ⟨pre, s0, post, hJ, hpre, hs0⟩ := exists_first_rejected J hrej
  obtain ⟨hret, herr⟩ :=
    verify_data_of_answers env use_client_cert self w blob blob_signature flags J hflags hans
  obtain ⟨hc, he⟩ := verify_data_loop_rejected pre s0 post hpre hs0 0 ""
  rw [← hJ] at hc he
  have hsome : (jcat_engine_gpg_check_signature s0).2.isSome = true := by
    rw [check_signature_error_isSome, hs0]; rfl
  obtain ⟨e, hE⟩ := Option.isSome_iff_exists.mp hsome
  refine ⟨pre, s0, post, hJ, hpre, hs0, ?_, ?_, e, ?_, ?_⟩
  · rw [hret, hc]; rfl
  · rw [herr, he]
  · rw [herr, he, hE]
  · exact check_signature_error_kind s0 e hE

/-- C1, at a concrete input: three signatures, the second and the third are
rejected. -/
theorem verify_data_rejects_first_witness :
    ∃ pre s0 post,
      [(⟨"AAAA", 0, 100⟩ : gpgme_signature), ⟨"BBBB", 9, 50⟩, ⟨"CCCC", 94, 10⟩]
        = pre ++ s0 :: post
      ∧ (∀ s ∈ pre, (jcat_engine_gpg_check_signature s).1 = true)
      ∧ (jcat_engine_gpg_check_signature s0).1 = false
      ∧ (jcat_engine_gpg_verify_data
          (scripted_env 0 1 (some [⟨"AAAA", 0, 100⟩, ⟨"BBBB", 9, 50⟩, ⟨"CCCC", 94, 10⟩]))
          8 ready_engine 0 [1, 2] [3] 4).ret = none
      ∧ (jcat_engine_gpg_verify_data
          (scripted_env 0 1 (some [⟨"AAAA", 0, 100⟩, ⟨"BBBB", 9, 50⟩, ⟨"CCCC", 94, 10⟩]))
          8 ready_engine 0 [1, 2] [3] 4).error = (jcat_engine_gpg_check_signature s0).2
      ∧ ∃ e,
          (jcat_engine_gpg_verify_data
            (scripted_env 0 1 (some [⟨"AAAA", 0, 100⟩, ⟨"BBBB", 9, 50⟩, ⟨"CCCC", 94, 10⟩]))
            8 ready_engine 0 [1, 2] [3] 4).error = some e
          ∧ e.code = .G_IO_ERROR .G_IO_ERROR_INVALID_DATA
          ∧ s0.fpr.data <:+: e.message.data :=
  verify_data_rejects_first
    (scripted_env 0 1 (some [⟨"AAAA", 0, 100⟩, ⟨"BBBB", 9, 50⟩, ⟨"CCCC", 94, 10⟩]))
    8 ready_engine 0 [1, 2] [3] 4 [⟨"AAAA", 0, 100⟩, ⟨"BBBB", 9, 50⟩, ⟨"CCCC", 94, 10⟩]
    (by decide) ⟨rfl, rfl, rfl, rfl⟩ ⟨⟨"CCCC", 94, 10⟩, by simp, by decide⟩

/-- The error of the concrete input of C1 is the one of the signature `BBBB`,
the first rejected one, not of `CCCC`. -/
theorem verify_data_rejects_first_example :
    (jcat_engine_gpg_verify_data
      (scripted_env 0 1 (some [⟨"AAAA", 0, 100⟩, ⟨"BBBB", 9, 50⟩, ⟨"CCCC", 94, 10⟩]))
      8 ready_engine 0 [1, 2] [3] 4).error
      = some ⟨.G_IO_ERROR .G_IO_ERROR_INVALID_DATA,
          "Could not check signature 'BBBB' as no public key"⟩ := by
  decide

/-- A result is returned only if the flag set is supported, the oracle answered
with a result record, and every signature of the record is accepted. -/
theorem verify_data_result_only_if_accepted (env : Env W) (use_client_cert : Nat)
    (self : JcatEngineGpg) (w : W) (blob blob_signature : List UInt8) (flags : Nat)
    (r : JcatResult)
    (h : (jcat_engine_gpg_verify_data env use_client_cert self w blob blob_signature flags).ret
      = some r) :
    flags &&& use_client_cert = 0
      ∧ ∃ J, OracleAnswers env self w blob blob_signature J
          ∧ ∀ s ∈ J, (jcat_engine_gpg_check_signature s).1 = true := by
  unfold jcat_engine_gpg_verify_data at h
  by_cases h0 : flags &&& use_client_cert = 0
  swap
  · simp [h0] at h
  by_cases h1 : (env.gpgme_data_new_from_mem w blob).1 = GPG_ERR_NO_ERROR
  swap
  · simp [h0, h1] at h
  by_cases h2 : (env.gpgme_data_new_from_mem (env.gpgme_data_new_from_mem w blob).2.2
      blob_signature).1 = GPG_ERR_NO_ERROR
  swap
  · simp [h0, h1, h2] at h
  by_cases h3 : (env.gpgme_op_verify
        (env.gpgme_data_new_from_mem (env.gpgme_data_new_from_mem w blob).2.2 blob_signature).2.2
        self.ctx
        (env.gpgme_data_new_from_mem (env.gpgme_data_new_from_mem w blob).2.2 blob_signature).2.1
        (env.gpgme_data_new_from_mem w blob).2.1).1 = GPG_ERR_NO_ERROR
  swap
  · simp [h0, h1, h2, h3] at h
  refine ⟨h0, ?_⟩
  simp only [h0, h1, h2, h3, ne_eq, not_true_eq_false, if_false] at h
  split at h
  · simp at h
  · rename_i J hJ
    refine ⟨J, ⟨h1, h2, h3, hJ⟩, ?_⟩
    intro s hs
    by_contra hrej
    have hrej' : ∃ s ∈ J, (jcat_engine_gpg_check_signature s).1 = false :=
      ⟨s, hs, by simpa using hrej⟩
    obtain ⟨pre, s0, post, hJ', hpre, hs0⟩ := exists_first_rejected J hrej'
    obtain ⟨hc, _⟩ := verify_data_loop_rejected pre s0 post hpre hs0 0 ""
    rw [← hJ'] at hc
    simp [hc] at h

/-- C4: when the client-certificate bit of the flag set is set, alone or with
other bits, `jcat_engine_gpg_verify_data` returns no result and sets an error
of the code `G_IO_ERROR_NOT_SUPPORTED`, makes no external call (no data buffer
is created, `gpgme_op_verify` is not called), leaves the world as it is, and
its outcome is the same in every environment. -/
theorem verify_data_client_cert (env : Env W) (use_client_cert : Nat) (self : JcatEngineGpg)
    (w : W) (blob blob_signature : List UInt8) (flags : Nat)
    (hflags : flags &&& use_client_cert ≠ 0) :
    jcat_engine_gpg_verify_data env use_client_cert self w blob blob_signature flags
        = { ret := none
            error := some ⟨.G_IO_ERROR .G_IO_ERROR_NOT_SUPPORTED,
              "no GPG client certificate support"⟩
            world := w
            calls := []
            debug := [] }
      ∧ ∀ env2 : Env W,
          jcat_engine_gpg_verify_data env2 use_client_cert self w blob blob_signature flags
            = jcat_engine_gpg_verify_data env use_client_cert self w blob blob_signature flags := by
  have key : ∀ e : Env W,
      jcat_engine_gpg_verify_data e use_client_cert self w blob blob_signature flags
        = { ret := none
            error := some ⟨.G_IO_ERROR .G_IO_ERROR_NOT_SUPPORTED,
              "no GPG client certificate support"⟩
            world := w
            calls := []
            debug := [] } := by
    intro e
    unfold jcat_engine_gpg_verify_data
    rw [if_pos hflags]
  exact ⟨key env, fun env2 => by rw [key env2, key env]⟩

/-- C4, at a concrete input: the client-certificate bit together with another
bit, on an oracle that would have accepted the signature. -/
theorem verify_data_client_cert_witness :
    jcat_engine_gpg_verify_data (scripted_env 0 1 (some [⟨"AAAA", 0, 100⟩])) 8 ready_engine 0
        [1, 2] [3] 12
        = { ret := none
            error := some ⟨.G_IO_ERROR .G_IO_ERROR_NOT_SUPPORTED,
              "no GPG client certificate support"⟩
            world := 0
            calls := []
            debug := [] }
      ∧ ∀ env2 : Env Nat,
          jcat_engine_gpg_verify_data env2 8 ready_engine 0 [1, 2] [3] 12
            = jcat_engine_gpg_verify_data (scripted_env 0 1 (some [⟨"AAAA", 0, 100⟩])) 8
                ready_engine 0 [1, 2] [3] 12 :=
  verify_data_client_cert (scripted_env 0 1 (some [⟨"AAAA", 0, 100⟩])) 8 ready_engine 0
    [1, 2] [3] 12 (by decide)

/-- When every signature of the result record is accepted and every timestamp
is below `2 ^ 63`, the call succeeds with the greatest timestamp and the
authority of the first signature that has it. -/
theorem verify_data_all_accepted (env : Env W) (use_client_cert : Nat) (self : JcatEngineGpg)
    (w : W) (blob blob_signature : List UInt8) (flags : Nat) (J : List gpgme_signature)
    (hflags : flags &&& use_client_cert = 0)
    (hans : OracleAnswers env self w blob blob_signature J)
    (hacc : ∀ s ∈ J, (jcat_engine_gpg_check_signature s).1 = true)
    (hts : ∀ s ∈ J, s.timestamp < 2 ^ 63) :
    (jcat_engine_gpg_verify_data env use_client_cert self w blob blob_signature flags).ret
        = some { engine := self, timestamp := (max_timestamp J : Int),
                 authority := newest_authority J }
      ∧ (jcat_engine_gpg_verify_data env use_client_cert self w blob blob_signature flags).error
        = none := by
  obtain ⟨hret, herr⟩ :=
    verify_data_of_answers env use_client_cert self w blob blob_signature flags J hflags hans
  obtain ⟨h1, h2, h3, h4⟩ := verify_data_loop_accepted J hacc hts 0 ""
  simp only [Nat.cast_zero] at h1 h2 h3 h4
  refine ⟨?_, by rw [herr, h2]⟩
  rw [hret, h1, h3, h4]
  simp [newest_authority]

theorem max_timestamp_zero_of_all_zero (J : List gpgme_signature)
    (h : ∀ s ∈ J, s.timestamp = 0) : max_timestamp J = 0 := by
  induction J with
  | nil => rfl
  | cons s rest ih =>
    have h1 : s.timestamp = 0 := h s (by simp)
    have h2 : max_timestamp rest = 0 := ih fun x hx => h x (by simp [hx])
    simp [max_timestamp, h1, h2]

theorem le_max_timestamp (J : List gpgme_signature) (s : gpgme_signature) (hs : s ∈ J) :
    s.timestamp ≤ max_timestamp J := by
  induction J with
  | nil => simp at hs
  | cons x rest ih =>
    simp only [max_timestamp]
    rcases List.mem_cons.mp hs with h | h
    · subst h; omega
    · have := ih h; omega

theorem max_timestamp_mem (J : List gpgme_signature) (h : 0 < max_timestamp J) :
    ∃ s ∈ J, s.timestamp = max_timestamp J := by
  induction J with
  | nil => simp [max_timestamp] at h
  | cons x rest ih =>
    simp only [max_timestamp] at h ⊢
    by_cases hc : x.timestamp < max_timestamp rest
    · obtain ⟨s, hs, he⟩ := ih (by omega)
      exact ⟨s, by simp [hs], by omega⟩
    · exact ⟨x, by simp, by omega⟩

theorem first_fpr_split (m : Nat) (J : List gpgme_signature)
    (h : ∃ s ∈ J, s.timestamp = m) :
    ∃ pre s post, J = pre ++ s :: post ∧ s.timestamp = m
      ∧ (∀ x ∈ pre, x.timestamp ≠ m)
      ∧ first_fpr_with_timestamp m J = s.fpr := by
  induction J with
  | nil => obtain ⟨s, hs, _⟩ := h; simp at hs
  | cons x rest ih =>
    by_cases hx : x.timestamp = m
    · exact ⟨[], x, rest, rfl, hx, by simp, by simp [first_fpr_with_timestamp, hx]⟩
    · obtain ⟨s, hs, he⟩ := h
      have hmem : s ∈ rest := by
        rcases List.mem_cons.mp hs with h | h
        · subst h; exact absurd he hx
        · exact h
      obtain ⟨pre, t, post, hJ, hte, hpre, htf⟩ := ih ⟨s, hmem, he⟩
      refine ⟨x :: pre, t, post, by simp [hJ], hte, ?_, by simp [first_fpr_with_timestamp, hx, htf]⟩
      intro y hy
      rcases List.mem_cons.mp hy with h | h
      · subst h; exact hx
      · exact hpre y h

/-- C10: when the flag set has no client-certificate bit, the oracle answers
with a result record whose signatures `J` are all accepted, and the timestamps
are below `2 ^ 63`, then `jcat_engine_gpg_verify_data` succeeds, and its result
has the timestamp `max(0, greatest timestamp of J)` and as authority the
fingerprint of the first signature of `J` with that timestamp when it is
greater than 0, and the empty string otherwise. `J` may be empty and may repeat
timestamps; a record without signatures, and one whose timestamps are all 0,
succeed with timestamp 0 and an empty authority. -/
theorem verify_data_newest (env : Env W) (use_client_cert : Nat) (self : JcatEngineGpg)
    (w : W) (blob blob_signature : List UInt8) (flags : Nat) (J : List gpgme_signature)
    (hflags : flags &&& use_client_cert = 0)
    (hans : OracleAnswers env self w blob blob_signature J)
    (hacc : ∀ s ∈ J, (jcat_engine_gpg_check_signature s).1 = true)
    (hts : ∀ s ∈ J, s.timestamp < 2 ^ 63) :
    (jcat_engine_gpg_verify_data env use_client_cert self w blob blob_signature flags).error
        = none
      ∧ (jcat_engine_gpg_verify_data env use_client_cert self w blob blob_signature flags).ret
        = some { engine := self, timestamp := (max_timestamp J : Int),
                 authority :=
                   if 0 < max_timestamp J then first_fpr_with_timestamp (max_timestamp J) J
                   else "" }
      ∧ (0 < max_timestamp J →
          ∃ pre s post, J = pre ++ s :: post ∧ s.timestamp = max_timestamp J
            ∧ (∀ x ∈ pre, x.timestamp < max_timestamp J)
            ∧ (∀ x ∈ J, x.timestamp ≤ max_timestamp J)
            ∧ first_fpr_with_timestamp (max_timestamp J) J = s.fpr)
      ∧ ((∀ s ∈ J, s.timestamp = 0) →
          (jcat_engine_gpg_verify_data env use_client_cert self w blob blob_signature flags).ret
            = some { engine := self, timestamp := 0, authority := "" }) := by
  obtain ⟨hret, herr⟩ := verify_data_all_accepted env use_client_cert self w blob
    blob_signature flags J hflags hans hacc hts
  refine ⟨herr, by simpa [newest_authority] using hret, ?_, ?_⟩
  · intro hpos
    obtain ⟨pre, s, post, hJ, hs, hpre, hf⟩ :=
      first_fpr_split (max_timestamp J) J (max_timestamp_mem J hpos)
    refine ⟨pre, s, post, hJ, hs, ?_, le_max_timestamp J, hf⟩
    intro x hx
    have hle := le_max_timestamp J x (by rw [hJ]; simp [hx])
    have hne := hpre x hx
    omega
  · intro hzero
    rw [hret, newest_authority, max_timestamp_zero_of_all_zero J hzero]
    simp

/-- C10, at a concrete input: three accepted signatures, two of them with the
greatest timestamp. -/
theorem verify_data_newest_witness :
    (jcat_engine_gpg_verify_data
        (scripted_env 0 1 (some [⟨"AAAA", 0, 100⟩, ⟨"BBBB", 0, 200⟩, ⟨"CCCC", 0, 200⟩]))
        8 ready_engine 0 [1, 2] [3] 4).error = none
      ∧ (jcat_engine_gpg_verify_data
        (scripted_env 0 1 (some [⟨"AAAA", 0, 100⟩, ⟨"BBBB", 0, 200⟩, ⟨"CCCC", 0, 200⟩]))
        8 ready_engine 0 [1, 2] [3] 4).ret
        = some { engine := ready_engine
                 timestamp :=
                  (max_timestamp [⟨"AAAA", 0, 100⟩, ⟨"BBBB", 0, 200⟩, ⟨"CCCC", 0, 200⟩] : Int)
                 authority :=
                   if 0 < max_timestamp [⟨"AAAA", 0, 100⟩, ⟨"BBBB", 0, 200⟩, ⟨"CCCC", 0, 200⟩]
                   then first_fpr_with_timestamp
                     (max_timestamp [⟨"AAAA", 0, 100⟩, ⟨"BBBB", 0, 200⟩, ⟨"CCCC", 0, 200⟩])
                     [⟨"AAAA", 0, 100⟩, ⟨"BBBB", 0, 200⟩, ⟨"CCCC", 0, 200⟩]
                   else "" }
      ∧ (0 < max_timestamp [⟨"AAAA", 0, 100⟩, ⟨"BBBB", 0, 200⟩, ⟨"CCCC", 0, 200⟩] →
          ∃ pre s post,
            [(⟨"AAAA", 0, 100⟩ : gpgme_signature), ⟨"BBBB", 0, 200⟩, ⟨"CCCC", 0, 200⟩]
              = pre ++ s :: post
            ∧ s.timestamp
              = max_timestamp [⟨"AAAA", 0, 100⟩, ⟨"BBBB", 0, 200⟩, ⟨"CCCC", 0, 200⟩]
            ∧ (∀ x ∈ pre, x.timestamp
                < max_timestamp [⟨"AAAA", 0, 100⟩, ⟨"BBBB", 0, 200⟩, ⟨"CCCC", 0, 200⟩])
            ∧ (∀ x ∈ [(⟨"AAAA", 0, 100⟩ : gpgme_signature), ⟨"BBBB", 0, 200⟩, ⟨"CCCC", 0, 200⟩],
                x.timestamp
                  ≤ max_timestamp [⟨"AAAA", 0, 100⟩, ⟨"BBBB", 0, 200⟩, ⟨"CCCC", 0, 200⟩])
            ∧ first_fpr_with_timestamp
                (max_timestamp [⟨"AAAA", 0, 100⟩, ⟨"BBBB", 0, 200⟩, ⟨"CCCC", 0, 200⟩])
                [⟨"AAAA", 0, 100⟩, ⟨"BBBB", 0, 200⟩, ⟨"CCCC", 0, 200⟩] = s.fpr)
      ∧ ((∀ s ∈ [(⟨"AAAA", 0, 100⟩ : gpgme_signature), ⟨"BBBB", 0, 200⟩, ⟨"CCCC", 0, 200⟩],
            s.timestamp = 0) →
          (jcat_engine_gpg_verify_data
            (scripted_env 0 1 (some [⟨"AAAA", 0, 100⟩, ⟨"BBBB", 0, 200⟩, ⟨"CCCC", 0, 200⟩]))
            8 ready_engine 0 [1, 2] [3] 4).ret
            = some { engine := ready_engine, timestamp := 0, authority := "" }) :=
  verify_data_newest
    (scripted_env 0 1 (some [⟨"AAAA", 0, 100⟩, ⟨"BBBB", 0, 200⟩, ⟨"CCCC", 0, 200⟩]))
    8 ready_engine 0 [1, 2] [3] 4 [⟨"AAAA", 0, 100⟩, ⟨"BBBB", 0, 200⟩, ⟨"CCCC", 0, 200⟩]
    (by decide) ⟨rfl, rfl, rfl, rfl⟩ (by decide) (by decide)

/-- The result of the concrete input of C10: timestamp 200 and the authority
`BBBB`, the first of the two signatures with that timestamp; and the results of
a record without signatures and of one whose only timestamp is 0. -/
theorem verify_data_newest_examples :
    (jcat_engine_gpg_verify_data
        (scripted_env 0 1 (some [⟨"AAAA", 0, 100⟩, ⟨"BBBB", 0, 200⟩, ⟨"CCCC", 0, 200⟩]))
        8 ready_engine 0 [1, 2] [3] 4).ret
        = some { engine := ready_engine, timestamp := 200, authority := "BBBB" }
      ∧ (jcat_engine_gpg_verify_data (scripted_env 0 1 (some [])) 8 ready_engine 0
          [1, 2] [3] 4).ret
        = some { engine := ready_engine, timestamp := 0, authority := "" }
      ∧ (jcat_engine_gpg_verify_data (scripted_env 0 1 (some [])) 8 ready_engine 0
          [1, 2] [3] 4).error = none := by
  decide

/-- C3 as it is written fails on a single accepted signature whose timestamp
is 0: the list is not empty, its timestamps are pairwise distinct and it is a
permutation of itself, the flag set has no client-certificate bit and the
oracle answers with the list; the call succeeds with timestamp 0, and the
authority is the empty string, not the fingerprint `AAAA` of the signature. -/
theorem verify_data_newest_distinct_counterexample :
    [(⟨"AAAA", 0, 0⟩ : gpgme_signature)] ≠ []
      ∧ (∀ s ∈ [(⟨"AAAA", 0, 0⟩ : gpgme_signature)],
          (jcat_engine_gpg_check_signature s).1 = true)
      ∧ ([(⟨"AAAA", 0, 0⟩ : gpgme_signature)].map fun s => s.timestamp).Nodup
      ∧ 4 &&& 8 = 0
      ∧ OracleAnswers (scripted_env 0 1 (some [⟨"AAAA", 0, 0⟩])) ready_engine 0 [1, 2] [3]
          [⟨"AAAA", 0, 0⟩]
      ∧ (jcat_engine_gpg_verify_data (scripted_env 0 1 (some [⟨"AAAA", 0, 0⟩])) 8
          ready_engine 0 [1, 2] [3] 4).ret
        = some { engine := ready_engine, timestamp := 0, authority := "" }
      ∧ ¬ ((jcat_engine_gpg_verify_data (scripted_env 0 1 (some [⟨"AAAA", 0, 0⟩])) 8
          ready_engine 0 [1, 2] [3] 4).ret
        = some { engine := ready_engine, timestamp := 0, authority := "AAAA" }) :=
  ⟨by decide, by decide, by decide, by decide, ⟨rfl, rfl, rfl, rfl⟩, by decide, by decide⟩

/-- A signature whose timestamp does not fit a `gint64` is not the reported
authority either: the timestamp `2 ^ 63` is read as a negative number. -/
theorem verify_data_newest_wraps :
    (jcat_engine_gpg_verify_data
        (scripted_env 0 1 (some [⟨"AAAA", 0, 100⟩, ⟨"BBBB", 0, 9223372036854775808⟩]))
        8 ready_engine 0 [1, 2] [3] 4).ret
      = some { engine := ready_engine, timestamp := 100, authority := "AAAA" } := by
  decide

/-- C3, amended: let `J` be accepted signatures with pairwise distinct
timestamps below `2 ^ 63`, and let `m` be the signature of `J` with the
greatest timestamp, which is greater than 0. For every permutation `J2` of `J`,
on a flag set without the client-certificate bit and an oracle whose result
record carries `J2`, `jcat_engine_gpg_verify_data` succeeds and returns the
result with the timestamp and the fingerprint of `m`. -/
theorem verify_data_newest_distinct (env : Env W) (use_client_cert : Nat)
    (self : JcatEngineGpg) (w : W) (blob blob_signature : List UInt8) (flags : Nat)
    (J J2 : List gpgme_signature) (m : gpgme_signature)
    (hflags : flags &&& use_client_cert = 0)
    (hperm : J2.Perm J)
    (hans : OracleAnswers env self w blob blob_signature J2)
    (hacc : ∀ s ∈ J, (jcat_engine_gpg_check_signature s).1 = true)
    (hnodup : (J.map fun s => s.timestamp).Nodup)
    (hts : ∀ s ∈ J, s.timestamp < 2 ^ 63)
    (hm : m ∈ J) (hmax : ∀ s ∈ J, s.timestamp ≤ m.timestamp) (hpos : 0 < m.timestamp) :
    (jcat_engine_gpg_verify_data env use_client_cert self w blob blob_signature flags).error
        = none
      ∧ (jcat_engine_gpg_verify_data env use_client_cert self w blob blob_signature flags).ret
        = some { engine := self, timestamp := (m.timestamp : Int), authority := m.fpr } := by
  have hacc2 : ∀ s ∈ J2, (jcat_engine_gpg_check_signature s).1 = true :=
    fun s hs => hacc s (hperm.mem_iff.mp hs)
  have hts2 : ∀ s ∈ J2, s.timestamp < 2 ^ 63 := fun s hs => hts s (hperm.mem_iff.mp hs)
  have hm2 : m ∈ J2 := hperm.mem_iff.mpr hm
  obtain ⟨hret, herr⟩ := verify_data_all_accepted env use_client_cert self w blob
    blob_signature flags J2 hflags hans hacc2 hts2
  have hge : m.timestamp ≤ max_timestamp J2 := le_max_timestamp J2 m hm2
  have hpos2 : 0 < max_timestamp J2 := by omega
  obtain ⟨pre, s, post, hJ, hs, _, hf⟩ :=
    first_fpr_split (max_timestamp J2) J2 (max_timestamp_mem J2 hpos2)
  have hs2 : s ∈ J2 := by rw [hJ]; simp
  have hsJ : s ∈ J := hperm.mem_iff.mp hs2
  have hle : s.timestamp ≤ m.timestamp := hmax s hsJ
  have heq : s.timestamp = m.timestamp := by omega
  have hsm : s = m := List.inj_on_of_nodup_map hnodup hsJ hm heq
  have hmaxeq : max_timestamp J2 = m.timestamp := by omega
  refine ⟨herr, ?_⟩
  rw [hret, newest_authority, if_pos hpos2, hf, hsm, hmaxeq]

/-- C3 amended, at the input of the scenario: signatures with the timestamps
100 and 200, delivered in the other order. -/
theorem verify_data_newest_distinct_witness :
    (jcat_engine_gpg_verify_data
        (scripted_env 0 1 (some [⟨"BBBB", 0, 200⟩, ⟨"AAAA", 0, 100⟩]))
        8 ready_engine 0 [1, 2] [3] 4).error = none
      ∧ (jcat_engine_gpg_verify_data
        (scripted_env 0 1 (some [⟨"BBBB", 0, 200⟩, ⟨"AAAA", 0, 100⟩]))
        8 ready_engine 0 [1, 2] [3] 4).ret
        = some { engine := ready_engine, timestamp := ((200 : Nat) : Int),
                 authority := "BBBB" } :=
  verify_data_newest_distinct
    (scripted_env 0 1 (some [⟨"BBBB", 0, 200⟩, ⟨"AAAA", 0, 100⟩]))
    8 ready_engine 0 [1, 2] [3] 4
    [⟨"AAAA", 0, 100⟩, ⟨"BBBB", 0, 200⟩] [⟨"BBBB", 0, 200⟩, ⟨"AAAA", 0, 100⟩] ⟨"BBBB", 0, 200⟩
    (by decide) (List.Perm.swap _ _ _) ⟨rfl, rfl, rfl, rfl⟩ (by decide) (by decide) (by decide)
    (by decide) (by decide) (by decide)

/-! ## The trust importer -/

/-- C5: when the key file loads and `gpgme_op_import` reports no error,
`jcat_engine_gpg_add_public_key` returns `TRUE` exactly when the import result
counts a newly imported key or an unchanged key; the return value is the same
for every import result with these two counts, whatever its per-key statuses
and its count of keys not imported. When the load or the import reports an
error, in any environment, the importer returns `FALSE`, does not call
`gpgme_op_import_result`, and its outcome is the same whatever that function
would answer. -/
theorem add_public_key_decision (env : Env W) (self : JcatEngineGpg) (w : W)
    (filename : String)
    (hload : load_rc env w filename = GPG_ERR_NO_ERROR)
    (himport : import_rc env self w filename = GPG_ERR_NO_ERROR) :
    ((jcat_engine_gpg_add_public_key env self w filename).ret = true
        ↔ (import_result env self w filename).imported ≠ 0
          ∨ (import_result env self w filename).unchanged ≠ 0)
      ∧ (∀ g : W → Option Nat → gpgme_import_result,
          (import_result { env with gpgme_op_import_result := g } self w filename).imported
              = (import_result env self w filename).imported →
          (import_result { env with gpgme_op_import_result := g } self w filename).unchanged
              = (import_result env self w filename).unchanged →
          (jcat_engine_gpg_add_public_key { env with gpgme_op_import_result := g } self w
              filename).ret
            = (jcat_engine_gpg_add_public_key env self w filename).ret)
      ∧ (∀ (env2 : Env W) (self2 : JcatEngineGpg) (w2 : W) (filename2 : String),
          load_rc env2 w2 filename2 ≠ GPG_ERR_NO_ERROR
            ∨ import_rc env2 self2 w2 filename2 ≠ GPG_ERR_NO_ERROR →
          (jcat_engine_gpg_add_public_key env2 self2 w2 filename2).ret = false
            ∧ Call.gpgme_op_import_result
                ∉ (jcat_engine_gpg_add_public_key env2 self2 w2 filename2).calls
            ∧ ∀ g : W → Option Nat → gpgme_import_result,
                jcat_engine_gpg_add_public_key { env2 with gpgme_op_import_result := g } self2
                    w2 filename2
                  = jcat_engine_gpg_add_public_key env2 self2 w2 filename2) := by
  unfold load_rc at hload
  unfold import_rc at himport
  refine ⟨?_, ?_, ?_⟩
  · unfold jcat_engine_gpg_add_public_key import_result
    simp only [hload, himport, ne_eq, not_true_eq_false, if_false]
    split_ifs with h
    · simp [h.1, h.2]
    · simp only [true_iff]
      by_contra hc
      push_neg at hc
      exact h hc
  · intro g h1 h2
    unfold import_result at h1 h2
    simp only at h1 h2
    unfold jcat_engine_gpg_add_public_key
    simp only [hload, himport, ne_eq, not_true_eq_false, if_false, h1, h2]
    split_ifs <;> rfl
  · intro env2 self2 w2 filename2 hfail
    unfold load_rc import_rc at hfail
    unfold jcat_engine_gpg_add_public_key
    by_cases hl : (env2.gpgme_data_new_from_file w2 filename2).1 = GPG_ERR_NO_ERROR
    · have hi : ¬ (env2.gpgme_op_import (env2.gpgme_data_new_from_file w2 filename2).2.2
          self2.ctx (env2.gpgme_data_new_from_file w2 filename2).2.1).1 = GPG_ERR_NO_ERROR := by
        rcases hfail with h | h
        · exact absurd hl h
        · exact h
      simp [hl, hi]
    · simp [hl]

/-- C5, at a concrete input: the import counts one new key. -/
theorem add_public_key_decision_witness :
    ((jcat_engine_gpg_add_public_key (scripted_env 0 1 none) ready_engine 0
          "keys/GPG-KEY-a").ret = true
        ↔ (import_result (scripted_env 0 1 none) ready_engine 0 "keys/GPG-KEY-a").imported ≠ 0
          ∨ (import_result (scripted_env 0 1 none) ready_engine 0 "keys/GPG-KEY-a").unchanged
              ≠ 0)
      ∧ (∀ g : Nat → Option Nat → gpgme_import_result,
          (import_result { scripted_env 0 1 none with gpgme_op_import_result := g }
              ready_engine 0 "keys/GPG-KEY-a").imported
              = (import_result (scripted_env 0 1 none) ready_engine 0
                  "keys/GPG-KEY-a").imported →
          (import_result { scripted_env 0 1 none with gpgme_op_import_result := g }
              ready_engine 0 "keys/GPG-KEY-a").unchanged
              = (import_result (scripted_env 0 1 none) ready_engine 0
                  "keys/GPG-KEY-a").unchanged →
          (jcat_engine_gpg_add_public_key
              { scripted_env 0 1 none with gpgme_op_import_result := g } ready_engine 0
              "keys/GPG-KEY-a").ret
            = (jcat_engine_gpg_add_public_key (scripted_env 0 1 none) ready_engine 0
                "keys/GPG-KEY-a").ret)
      ∧ (∀ (env2 : Env Nat) (self2 : JcatEngineGpg) (w2 : Nat) (filename2 : String),
          load_rc env2 w2 filename2 ≠ GPG_ERR_NO_ERROR
            ∨ import_rc env2 self2 w2 filename2 ≠ GPG_ERR_NO_ERROR →
          (jcat_engine_gpg_add_public_key env2 self2 w2 filename2).ret = false
            ∧ Call.gpgme_op_import_result
                ∉ (jcat_engine_gpg_add_public_key env2 self2 w2 filename2).calls
            ∧ ∀ g : Nat → Option Nat → gpgme_import_result,
                jcat_engine_gpg_add_public_key { env2 with gpgme_op_import_result := g } self2
                    w2 filename2
                  = jcat_engine_gpg_add_public_key env2 self2 w2 filename2) :=
  add_public_key_decision (scripted_env 0 1 none) ready_engine 0 "keys/GPG-KEY-a"
    (by decide) (by decide)

/-- The importer on concrete inputs: one new key gives `TRUE`; no new and no
unchanged key gives `FALSE` with the error `key import failed`; a file that
does not load gives `FALSE` after the single call `gpgme_data_new_from_file`. -/
theorem add_public_key_examples :
    (jcat_engine_gpg_add_public_key (scripted_env 0 1 none) ready_engine 0
        "keys/GPG-KEY-a").ret = true
      ∧ (jcat_engine_gpg_add_public_key (scripted_env 0 0 none) ready_engine 0
        "keys/GPG-KEY-a").ret = false
      ∧ (jcat_engine_gpg_add_public_key (scripted_env 0 0 none) ready_engine 0
        "keys/GPG-KEY-a").error
        = some ⟨.G_IO_ERROR .G_IO_ERROR_FAILED, "key import failed keys/GPG-KEY-a"⟩
      ∧ (jcat_engine_gpg_add_public_key (scripted_env 0 1 none) ready_engine 0
        "keys/GPG-KEY-bad").ret = false
      ∧ (jcat_engine_gpg_add_public_key (scripted_env 0 1 none) ready_engine 0
        "keys/GPG-KEY-bad").calls = [.gpgme_data_new_from_file "keys/GPG-KEY-bad" 1] := by
  decide

/-! ## Loading the trust material -/

theorem imported_files_append (a b : List Call) :
    imported_files (a ++ b) = imported_files a ++ imported_files b := by
  induction a with
  | nil => rfl
  | cons c rest ih => cases c <;> simp [imported_files, ih]

theorem imported_files_add_public_key (env : Env W) (self : JcatEngineGpg) (w : W)
    (filename : String) :
    imported_files (jcat_engine_gpg_add_public_key env self w filename).calls = [filename] := by
  unfold jcat_engine_gpg_add_public_key
  simp only
  split_ifs <;> rfl

theorem add_public_key_error_of_ret (env : Env W) (self : JcatEngineGpg) (w : W)
    (filename : String) (h : (jcat_engine_gpg_add_public_key env self w filename).ret = true) :
    (jcat_engine_gpg_add_public_key env self w filename).error = none := by
  unfold jcat_engine_gpg_add_public_key at h ⊢
  simp only at h ⊢
  split_ifs at h ⊢
  all_goals simp_all

theorem trust_files_cons (env : Env W) (path fn : String) (rest : List String) :
    trust_files env path (fn :: rest)
      = if g_str_has_prefix fn "GPG-KEY-" then
          env.g_build_filename path fn :: trust_files env path rest
        else trust_files env path rest := by
  unfold trust_files
  by_cases h : g_str_has_prefix fn "GPG-KEY-" = true
  · simp [List.filter_cons, h]
  · simp [List.filter_cons, h]

theorem add_public_keys_loop_succeeds (env : Env W) (self : JcatEngineGpg) (path : String)
    (names : List String) (w : W)
    (h : imports_succeed env self w (trust_files env path names) = true) :
    (add_public_keys_loop env self path names w).ret = true
      ∧ (add_public_keys_loop env self path names w).error = none
      ∧ imported_files (add_public_keys_loop env self path names w).calls
          = trust_files env path names
      ∧ (add_public_keys_loop env self path names w).world
          = world_after_imports env self w (trust_files env path names) := by
  induction names generalizing w with
  | nil => simp [add_public_keys_loop, trust_files, imported_files, world_after_imports]
  | cons fn rest ih =>
    rw [trust_files_cons] at h ⊢
    by_cases hp : g_str_has_prefix fn "GPG-KEY-" = true
    · rw [if_pos hp] at h ⊢
      simp only [imports_succeed, Bool.and_eq_true] at h
      obtain ⟨h1, h2⟩ := h
      obtain ⟨i1, i2, i3, i4⟩ := ih _ h2
      simp only [add_public_keys_loop, hp, Bool.not_true, Bool.false_eq_true, if_false, h1,
        world_after_imports, imported_files_append, imported_files_add_public_key]
      exact ⟨i1, i2, by rw [i3]; rfl, i4⟩
    · rw [if_neg hp] at h ⊢
      simp only [add_public_keys_loop, hp, Bool.not_false, if_true]
      simpa using ih w h

theorem add_public_keys_loop_fails (env : Env W) (self : JcatEngineGpg) (path : String)
    (names : List String) (w : W) (pre : List String) (f : String) (post : List String)
    (hM : trust_files env path names = pre ++ f :: post)
    (hpre : imports_succeed env self w pre = true)
    (hf : (jcat_engine_gpg_add_public_key env self (world_after_imports env self w pre) f).ret
      = false) :
    (add_public_keys_loop env self path names w).ret = false
      ∧ (add_public_keys_loop env self path names w).error
          = (jcat_engine_gpg_add_public_key env self (world_after_imports env self w pre)
              f).error
      ∧ imported_files (add_public_keys_loop env self path names w).calls = pre ++ [f]
      ∧ (add_public_keys_loop env self path names w).world
          = (jcat_engine_gpg_add_public_key env self (world_after_imports env self w pre)
              f).world := by
  induction names generalizing w pre with
  | nil => simp [trust_files] at hM
  | cons fn rest ih =>
    rw [trust_files_cons] at hM
    by_cases hp : g_str_has_prefix fn "GPG-KEY-" = true
    · rw [if_pos hp] at hM
      cases pre with
      | nil =>
        simp only [List.nil_append, List.cons.injEq] at hM
        obtain ⟨hfn, _⟩ := hM
        simp only [world_after_imports] at hf ⊢
        simp only [add_public_keys_loop, hp, Bool.not_true, Bool.false_eq_true, if_false, hfn,
          hf, Bool.not_false, if_true, imported_files_add_public_key, List.nil_append]
        exact ⟨trivial, trivial, trivial, trivial⟩
      | cons p pre2 =>
        simp only [List.cons_append, List.cons.injEq] at hM
        obtain ⟨hfn, hrest⟩ := hM
        simp only [imports_succeed, Bool.and_eq_true] at hpre
        obtain ⟨h1, h2⟩ := hpre
        simp only [world_after_imports] at hf ⊢
        obtain ⟨i1, i2, i3, i4⟩ := ih _ pre2 hrest h2 hf
        simp only [add_public_keys_loop, hp, Bool.not_true, Bool.false_eq_true, if_false, hfn,
          h1, imported_files_append, imported_files_add_public_key]
        exact ⟨i1, i2, by rw [i3]; rfl, i4⟩
    · rw [if_neg hp] at hM
      simp only [add_public_keys_loop, hp, Bool.not_false, if_true]
      simpa using ih w pre hM hpre hf

theorem imports_succeed_or_first_failure (env : Env W) (self : JcatEngineGpg) (w : W)
    (files : List String) :
    imports_succeed env self w files = true
      ∨ ∃ pre f post, files = pre ++ f :: post
          ∧ imports_succeed env self w pre = true
          ∧ (jcat_engine_gpg_add_public_key env self (world_after_imports env self w pre)
              f).ret = false := by
  induction files generalizing w with
  | nil => left; rfl
  | cons x rest ih =>
    by_cases hx : (jcat_engine_gpg_add_public_key env self w x).ret = true
    · rcases ih (jcat_engine_gpg_add_public_key env self w x).world with h | h
      · left; simp [imports_succeed, hx, h]
      · obtain ⟨pre, f, post, h1, h2, h3⟩ := h
        right
        exact ⟨x :: pre, f, post, by simp [h1], by simp [imports_succeed, hx, h2],
          by simpa [world_after_imports] using h3⟩
    · right
      exact ⟨[], x, rest, rfl, rfl, by simpa [world_after_imports] using hx⟩

/-- C6: let `g_dir_open` succeed on the directory and let `names` be the names
that `g_dir_read_name` delivers. The trust files are the entries whose name
starts with `GPG-KEY-`, in enumeration order. `jcat_engine_gpg_add_public_keys`
runs the importer on the trust files in order and stops after the first one
whose import fails: in that case it returns `FALSE` with the error of that
failing import, the importer was run on the trust files up to and including it
and on no later one, and the world is the one that these imports left. When
every import succeeds, in particular when there is no trust file, it returns
`TRUE` without an error after the importer ran on every trust file. One of the
two cases always holds. -/
theorem add_public_keys_first_failure (env : Env W) (self : JcatEngineGpg) (w : W)
    (path : String) (names : List String)
    (hopen : env.g_dir_open w path = .ok names) :
    (imports_succeed env self w (trust_files env path names) = true →
        (jcat_engine_gpg_add_public_keys env self w path).ret = true
          ∧ (jcat_engine_gpg_add_public_keys env self w path).error = none
          ∧ imported_files (jcat_engine_gpg_add_public_keys env self w path).calls
              = trust_files env path names
          ∧ (jcat_engine_gpg_add_public_keys env self w path).world
              = world_after_imports env self w (trust_files env path names))
      ∧ (∀ pre f post, trust_files env path names = pre ++ f :: post →
          imports_succeed env self w pre = true →
          (jcat_engine_gpg_add_public_key env self (world_after_imports env self w pre) f).ret
            = false →
          (jcat_engine_gpg_add_public_keys env self w path).ret = false
            ∧ (jcat_engine_gpg_add_public_keys env self w path).error
                = (jcat_engine_gpg_add_public_key env self
                    (world_after_imports env self w pre) f).error
            ∧ imported_files (jcat_engine_gpg_add_public_keys env self w path).calls
                = pre ++ [f]
            ∧ (jcat_engine_gpg_add_public_keys env self w path).world
                = (jcat_engine_gpg_add_public_key env self
                    (world_after_imports env self w pre) f).world)
      ∧ (trust_files env path names = [] →
          (jcat_engine_gpg_add_public_keys env self w path).ret = true)
      ∧ (imports_succeed env self w (trust_files env path names) = true
          ∨ ∃ pre f post, trust_files env path names = pre ++ f :: post
              ∧ imports_succeed env self w pre = true
              ∧ (jcat_engine_gpg_add_public_key env self
                  (world_after_imports env self w pre) f).ret = false) := by
  have hdef : jcat_engine_gpg_add_public_keys env self w path
      = { add_public_keys_loop env self path names w with
          calls := .g_dir_open path :: (add_public_keys_loop env self path names w).calls } := by
    unfold jcat_engine_gpg_add_public_keys
    rw [hopen]
  have hsucc : imports_succeed env self w (trust_files env path names) = true →
      (jcat_engine_gpg_add_public_keys env self w path).ret = true
        ∧ (jcat_engine_gpg_add_public_keys env self w path).error = none
        ∧ imported_files (jcat_engine_gpg_add_public_keys env self w path).calls
            = trust_files env path names
        ∧ (jcat_engine_gpg_add_public_keys env self w path).world
            = world_after_imports env self w (trust_files env path names) := by
    intro h
    obtain ⟨i1, i2, i3, i4⟩ := add_public_keys_loop_succeeds env self path names w h
    rw [hdef]
    exact ⟨i1, i2, by simpa [imported_files] using i3, i4⟩
  refine ⟨hsucc, ?_, ?_, imports_succeed_or_first_failure env self w _⟩
  · intro pre f post hM hpre hf
    obtain ⟨i1, i2, i3, i4⟩ := add_public_keys_loop_fails env self path names w pre f post hM
      hpre hf
    rw [hdef]
    exact ⟨i1, i2, by simpa [imported_files] using i3, i4⟩
  · intro hnil
    exact (hsucc (by rw [hnil]; rfl)).1

/-- C6, at a concrete input: the directory holds `GPG-KEY-a`, `README`,
`GPG-KEY-bad` and `GPG-KEY-c`, and the file `GPG-KEY-bad` does not load. The
importer runs on `GPG-KEY-a` and `GPG-KEY-bad` and on nothing else, and the
call returns `FALSE` with the error of the second import. -/
theorem add_public_keys_first_failure_witness :
    (jcat_engine_gpg_add_public_keys (scripted_env 0 1 none) ready_engine 0 "keys").ret
        = false
      ∧ (jcat_engine_gpg_add_public_keys (scripted_env 0 1 none) ready_engine 0 "keys").error
          = (jcat_engine_gpg_add_public_key (scripted_env 0 1 none) ready_engine
              (world_after_imports (scripted_env 0 1 none) ready_engine 0 ["keys/GPG-KEY-a"])
              "keys/GPG-KEY-bad").error
      ∧ imported_files
          (jcat_engine_gpg_add_public_keys (scripted_env 0 1 none) ready_engine 0 "keys").calls
          = ["keys/GPG-KEY-a"] ++ ["keys/GPG-KEY-bad"]
      ∧ (jcat_engine_gpg_add_public_keys (scripted_env 0 1 none) ready_engine 0 "keys").world
          = (jcat_engine_gpg_add_public_key (scripted_env 0 1 none) ready_engine
              (world_after_imports (scripted_env 0 1 none) ready_engine 0 ["keys/GPG-KEY-a"])
              "keys/GPG-KEY-bad").world :=
  (add_public_keys_first_failure (scripted_env 0 1 none) ready_engine 0 "keys"
    ["GPG-KEY-a", "README", "GPG-KEY-bad", "GPG-KEY-c"] rfl).2.1
    ["keys/GPG-KEY-a"] "keys/GPG-KEY-bad" ["keys/GPG-KEY-c"] (by decide) (by decide) (by decide)

/-- The concrete run of C6, evaluated: the error is the load error of
`GPG-KEY-bad`, the key of `GPG-KEY-a` stays in the keyring (the world counts one
key), and `GPG-KEY-c` was never handed to gpgme. -/
theorem add_public_keys_example :
    (jcat_engine_gpg_add_public_keys (scripted_env 0 1 none) ready_engine 0 "keys").error
        = some ⟨.G_IO_ERROR .G_IO_ERROR_FAILED,
            "failed to load keys/GPG-KEY-bad: General error"⟩
      ∧ (jcat_engine_gpg_add_public_keys (scripted_env 0 1 none) ready_engine 0 "keys").world
        = 1
      ∧ (jcat_engine_gpg_add_public_keys (scripted_env 0 1 none) ready_engine 0 "keys").calls
        = [.g_dir_open "keys", .gpgme_data_new_from_file "keys/GPG-KEY-a" 0,
            .gpgme_op_import 0, .gpgme_op_import_result,
            .gpgme_data_new_from_file "keys/GPG-KEY-bad" 1] := by
  decide

/-! ## Setup -/

theorem setup_of_ctx (env : Env W) (self : JcatEngineGpg) (w : W) (h : self.ctx ≠ none) :
    jcat_engine_gpg_setup env self w = setup_nothing self w := by
  unfold jcat_engine_gpg_setup setup_nothing
  rw [if_pos h]

theorem setup_success_ctx (env : Env W) (self : JcatEngineGpg) (w : W)
    (h : (jcat_engine_gpg_setup env self w).ret.1 = true) :
    (jcat_engine_gpg_setup env self w).ret.2.ctx ≠ none := by
  by_cases hc : self.ctx ≠ none
  · rw [setup_of_ctx env self w hc]; exact hc
  · unfold jcat_engine_gpg_setup at h ⊢
    simp only [hc, if_false] at h ⊢
    split_ifs at h ⊢
    all_goals simp_all

theorem setup_calls_of_ctx (self : JcatEngineGpg) (h : self.ctx ≠ none)
    (later : List (Env W × W)) :
    setup_calls self later = later.map fun p => setup_nothing self p.2 := by
  induction later with
  | nil => rfl
  | cons p rest ih =>
    simp only [setup_calls, setup_of_ctx p.1 self p.2 h, List.map_cons]
    exact congrArg _ ih

theorem all_calls_of_no_calls {α : Type} (l : List (Out W α)) (h : ∀ o ∈ l, o.calls = []) :
    all_calls l = [] := by
  induction l with
  | nil => rfl
  | cons o rest ih =>
    have h1 : o.calls = [] := h o (by simp)
    have h2 : all_calls rest = [] := ih fun x hx => h x (by simp [hx])
    simp [all_calls, h1, h2]

/-- On an engine without a context, a successful setup call made every
initialization step, each once, and each step reported success. -/
theorem setup_first_success_calls (env : Env W) (self : JcatEngineGpg) (w : W)
    (hctx : self.ctx = none) (h : (jcat_engine_gpg_setup env self w).ret.1 = true) :
    ∃ m : Int, 0 ≤ m
      ∧ (jcat_engine_gpg_setup env self w).calls
        = [.gpg_err_init GPG_ERR_NO_ERROR, .gpgme_check_version, .gpgme_new GPG_ERR_NO_ERROR,
            .gpgme_set_protocol .GPGME_PROTOCOL_OpenPGP GPG_ERR_NO_ERROR,
            .g_mkdir_with_parents (env.g_build_filename self.keyring_path "gnupg") 0o700 m,
            .gpgme_ctx_set_engine_info .GPGME_PROTOCOL_OpenPGP
              (env.g_build_filename self.keyring_path "gnupg") GPG_ERR_NO_ERROR,
            .gpgme_set_armor true] := by
  unfold jcat_engine_gpg_setup at h ⊢
  simp only [hctx, ne_eq, not_true_eq_false, if_false, jcat_engine_get_keyring_path] at h ⊢
  split_ifs at h ⊢ with h1 h2 h3 h4 h5
  simp only [ne_eq, Decidable.not_not, not_lt] at h1 h2 h3 h4 h5
  exact ⟨_, h4, by simp [h1, h2, h3, h5]⟩

/-- Idempotence of setup after a success, for every engine: once a setup call
has returned `TRUE`, the engine has a context, and every later setup call, in
whatever environment and world it is made, returns `TRUE` with the engine and
the world as they were, sets no error and makes no external call. So the
external calls of the whole sequence are those of the successful call. Only
when that call was made on an engine without a context are they the
initialization steps, each made once and each successful; on an engine that a
failed setup left with a context they are none. -/
theorem setup_idempotent (env : Env W) (self : JcatEngineGpg) (w : W)
    (later : List (Env W × W))
    (h : (jcat_engine_gpg_setup env self w).ret.1 = true) :
    (jcat_engine_gpg_setup env self w).ret.2.ctx ≠ none
      ∧ setup_calls self ((env, w) :: later)
        = jcat_engine_gpg_setup env self w
            :: (later.map fun p => setup_nothing (jcat_engine_gpg_setup env self w).ret.2 p.2)
      ∧ all_calls (setup_calls self ((env, w) :: later))
        = (jcat_engine_gpg_setup env self w).calls
      ∧ (self.ctx = none →
          ∃ m : Int, 0 ≤ m
            ∧ all_calls (setup_calls self ((env, w) :: later))
              = [.gpg_err_init GPG_ERR_NO_ERROR, .gpgme_check_version,
                  .gpgme_new GPG_ERR_NO_ERROR,
                  .gpgme_set_protocol .GPGME_PROTOCOL_OpenPGP GPG_ERR_NO_ERROR,
                  .g_mkdir_with_parents (env.g_build_filename self.keyring_path "gnupg")
                    0o700 m,
                  .gpgme_ctx_set_engine_info .GPGME_PROTOCOL_OpenPGP
                    (env.g_build_filename self.keyring_path "gnupg") GPG_ERR_NO_ERROR,
                  .gpgme_set_armor true]) := by
  have hctx := setup_success_ctx env self w h
  have hseq : setup_calls self ((env, w) :: later)
      = jcat_engine_gpg_setup env self w
          :: later.map fun p =>
            setup_nothing (jcat_engine_gpg_setup env self w).ret.2 p.2 := by
    simp only [setup_calls]
    rw [setup_calls_of_ctx _ hctx later]
  have hall : all_calls (setup_calls self ((env, w) :: later))
      = (jcat_engine_gpg_setup env self w).calls := by
    rw [hseq]
    simp only [all_calls]
    rw [all_calls_of_no_calls]
    · simp
    · intro o ho
      obtain ⟨p, _, hp⟩ := List.mem_map.mp ho
      rw [← hp]
      rfl
  refine ⟨hctx, hseq, hall, ?_⟩
  intro hnone
  obtain ⟨m, hm, hcalls⟩ := setup_first_success_calls env self w hnone h
  exact ⟨m, hm, by rw [hall, hcalls]⟩

/-- The idempotence of setup at a concrete input: a first setup call that
succeeds, followed by three calls in environments where the protocol could not
be set. -/
theorem setup_idempotent_witness :
    (jcat_engine_gpg_setup (scripted_env 0 1 none) fresh_engine 0).ret.2.ctx ≠ none
      ∧ setup_calls fresh_engine
          ((scripted_env 0 1 none, 0)
            :: [(scripted_env 1 1 none, 5), (scripted_env 1 0 none, 6),
                (scripted_env 7 1 none, 7)])
        = jcat_engine_gpg_setup (scripted_env 0 1 none) fresh_engine 0
            :: ([(scripted_env 1 1 none, 5), (scripted_env 1 0 none, 6),
                (scripted_env 7 1 none, 7)].map fun p =>
              setup_nothing
                (jcat_engine_gpg_setup (scripted_env 0 1 none) fresh_engine 0).ret.2 p.2)
      ∧ all_calls (setup_calls fresh_engine
          ((scripted_env 0 1 none, 0)
            :: [(scripted_env 1 1 none, 5), (scripted_env 1 0 none, 6),
                (scripted_env 7 1 none, 7)]))
        = (jcat_engine_gpg_setup (scripted_env 0 1 none) fresh_engine 0).calls
      ∧ (fresh_engine.ctx = none →
          ∃ m : Int, 0 ≤ m
            ∧ all_calls (setup_calls fresh_engine
                ((scripted_env 0 1 none, 0)
                  :: [(scripted_env 1 1 none, 5), (scripted_env 1 0 none, 6),
                      (scripted_env 7 1 none, 7)]))
              = [.gpg_err_init GPG_ERR_NO_ERROR, .gpgme_check_version,
                  .gpgme_new GPG_ERR_NO_ERROR,
                  .gpgme_set_protocol .GPGME_PROTOCOL_OpenPGP GPG_ERR_NO_ERROR,
                  .g_mkdir_with_parents
                    ((scripted_env 0 1 none).g_build_filename fresh_engine.keyring_path "gnupg")
                    0o700 m,
                  .gpgme_ctx_set_engine_info .GPGME_PROTOCOL_OpenPGP
                    ((scripted_env 0 1 none).g_build_filename fresh_engine.keyring_path "gnupg")
                    GPG_ERR_NO_ERROR,
                  .gpgme_set_armor true]) :=
  setup_idempotent (scripted_env 0 1 none) fresh_engine 0
    [(scripted_env 1 1 none, 5), (scripted_env 1 0 none, 6), (scripted_env 7 1 none, 7)]
    (by decide)

/-- A setup call on an engine without a context in which `gpgme_new` succeeds
leaves the new context in the engine, whether the steps after it succeed or
fail, and every later setup call then does nothing and returns `TRUE`. -/
theorem setup_failure_keeps_ctx (env : Env W) (self : JcatEngineGpg) (w : W)
    (hctx : self.ctx = none)
    (hinit : (env.gpg_err_init w).1 = GPG_ERR_NO_ERROR)
    (hnew : (env.gpgme_new (env.gpgme_check_version (env.gpg_err_init w).2).2).1
      = GPG_ERR_NO_ERROR) :
    (jcat_engine_gpg_setup env self w).ret.2.ctx ≠ none
      ∧ ∀ (env2 : Env W) (w2 : W),
          jcat_engine_gpg_setup env2 (jcat_engine_gpg_setup env self w).ret.2 w2
            = setup_nothing (jcat_engine_gpg_setup env self w).ret.2 w2 := by
  have hc : (jcat_engine_gpg_setup env self w).ret.2.ctx ≠ none := by
    unfold jcat_engine_gpg_setup
    simp only [hctx, hinit, hnew, ne_eq, not_true_eq_false, if_false]
    split_ifs
    all_goals simp
  exact ⟨hc, fun env2 w2 => setup_of_ctx env2 _ w2 hc⟩

/-- C7, the failing run: on a new engine the first setup call is made while the
keyring directory cannot be created, and fails; the three calls after it are
made in an environment where every step would succeed. The second call is a
setup call that returns `TRUE`, and so do the two calls after it, but the
sequence that starts with it makes no external call at all: initialization is
performed zero times, not once. Over the whole history of the engine the
keyring directory was never created (the one `g_mkdir_with_parents` answered
-1), `gpgme_ctx_set_engine_info` never bound the context to it, and
`gpgme_set_armor` was never called. -/
theorem setup_never_initializes :
    (setup_calls fresh_engine
        [(unwritable_env, 0), (scripted_env 0 1 none, 0), (scripted_env 0 1 none, 0),
          (scripted_env 0 1 none, 0)]).map (fun o => o.ret.1)
        = [false, true, true, true]
      ∧ (jcat_engine_gpg_setup unwritable_env fresh_engine 0).ret.2.ctx = some 1
      ∧ (jcat_engine_gpg_setup (scripted_env 0 1 none)
          (jcat_engine_gpg_setup unwritable_env fresh_engine 0).ret.2 0).ret.1 = true
      ∧ all_calls (setup_calls (jcat_engine_gpg_setup unwritable_env fresh_engine 0).ret.2
          [(scripted_env 0 1 none, 0), (scripted_env 0 1 none, 0), (scripted_env 0 1 none, 0)])
        = []
      ∧ all_calls (setup_calls fresh_engine
          [(unwritable_env, 0), (scripted_env 0 1 none, 0), (scripted_env 0 1 none, 0),
            (scripted_env 0 1 none, 0)])
        = [.gpg_err_init 0, .gpgme_check_version, .gpgme_new 0,
            .gpgme_set_protocol .GPGME_PROTOCOL_OpenPGP 0,
            .g_mkdir_with_parents "/var/lib/jcat/gnupg" 0o700 (-1)]
      ∧ all_calls (setup_calls fresh_engine [(scripted_env 0 1 none, 0)])
        = [.gpg_err_init 0, .gpgme_check_version, .gpgme_new 0,
            .gpgme_set_protocol .GPGME_PROTOCOL_OpenPGP 0,
            .g_mkdir_with_parents "/var/lib/jcat/gnupg" 0o700 0,
            .gpgme_ctx_set_engine_info .GPGME_PROTOCOL_OpenPGP "/var/lib/jcat/gnupg" 0,
            .gpgme_set_armor true] := by
  decide

/-- C8, the failing run: the keyring directory cannot be created. The first
setup call on a new engine fails with `failed to create`, but the context that
`gpgme_new` stored in the engine stays there. The second call, made while the
directory still cannot be created, returns `TRUE` without an error and without
any external call. Over both calls the keyring directory was never created and
the context was never bound to it. -/
theorem setup_retry_after_failure :
    (jcat_engine_gpg_setup unwritable_env fresh_engine 0).ret.1 = false
      ∧ (jcat_engine_gpg_setup unwritable_env fresh_engine 0).error
        = some ⟨.G_IO_ERROR .G_IO_ERROR_FAILED, "failed to create /var/lib/jcat/gnupg"⟩
      ∧ (jcat_engine_gpg_setup unwritable_env fresh_engine 0).ret.2.ctx = some 1
      ∧ (jcat_engine_gpg_setup unwritable_env
          (jcat_engine_gpg_setup unwritable_env fresh_engine 0).ret.2
          (jcat_engine_gpg_setup unwritable_env fresh_engine 0).world).ret.1 = true
      ∧ (jcat_engine_gpg_setup unwritable_env
          (jcat_engine_gpg_setup unwritable_env fresh_engine 0).ret.2
          (jcat_engine_gpg_setup unwritable_env fresh_engine 0).world).error = none
      ∧ all_calls (setup_calls fresh_engine [(unwritable_env, 0), (unwritable_env, 0)])
        = [.gpg_err_init 0, .gpgme_check_version, .gpgme_new 0,
            .gpgme_set_protocol .GPGME_PROTOCOL_OpenPGP 0,
            .g_mkdir_with_parents "/var/lib/jcat/gnupg" 0o700 (-1)] := by
  decide

/-- The same run when `gpgme_set_protocol` always fails: the retry returns
`TRUE` although the protocol was never set. -/
theorem setup_retry_after_protocol_failure :
    (jcat_engine_gpg_setup (scripted_env 1 1 none) fresh_engine 0).ret.1 = false
      ∧ (jcat_engine_gpg_setup (scripted_env 1 1 none) fresh_engine 0).error
        = some ⟨.G_IO_ERROR .G_IO_ERROR_FAILED, "failed to set protocol: General error"⟩
      ∧ (jcat_engine_gpg_setup (scripted_env 1 1 none)
          (jcat_engine_gpg_setup (scripted_env 1 1 none) fresh_engine 0).ret.2
          (jcat_engine_gpg_setup (scripted_env 1 1 none) fresh_engine 0).world).ret.1 = true
      ∧ all_calls (setup_calls fresh_engine
          [(scripted_env 1 1 none, 0), (scripted_env 1 1 none, 0)])
        = [.gpg_err_init 0, .gpgme_check_version, .gpgme_new 0,
            .gpgme_set_protocol .GPGME_PROTOCOL_OpenPGP 1] := by
  decide

/-! ## Error kinds -/

theorem setup_error_kind (env : Env W) (self : JcatEngineGpg) (w : W) :
    error_kind (jcat_engine_gpg_setup env self w)
      = if (jcat_engine_gpg_setup env self w).ret.1 then none
        else some (.G_IO_ERROR .G_IO_ERROR_FAILED) := by
  unfold jcat_engine_gpg_setup error_kind
  simp only
  split_ifs
  all_goals simp_all

theorem add_public_key_error_kind (env : Env W) (self : JcatEngineGpg) (w : W)
    (filename : String) :
    error_kind (jcat_engine_gpg_add_public_key env self w filename)
      = if (jcat_engine_gpg_add_public_key env self w filename).ret then none
        else some (.G_IO_ERROR .G_IO_ERROR_FAILED) := by
  unfold jcat_engine_gpg_add_public_key error_kind
  simp only
  split_ifs
  all_goals simp_all

theorem verify_data_error_kind_no_answer (env : Env W) (use_client_cert : Nat)
    (self : JcatEngineGpg) (w : W) (blob blob_signature : List UInt8) (flags : Nat)
    (hflags : flags &&& use_client_cert = 0)
    (hno : ¬ ∃ J, OracleAnswers env self w blob blob_signature J) :
    (jcat_engine_gpg_verify_data env use_client_cert self w blob blob_signature flags).ret
        = none
      ∧ error_kind
          (jcat_engine_gpg_verify_data env use_client_cert self w blob blob_signature flags)
        = some (.G_IO_ERROR .G_IO_ERROR_FAILED) := by
  unfold jcat_engine_gpg_verify_data error_kind
  by_cases h1 : (env.gpgme_data_new_from_mem w blob).1 = GPG_ERR_NO_ERROR
  swap
  · simp [hflags, h1]
  by_cases h2 : (env.gpgme_data_new_from_mem (env.gpgme_data_new_from_mem w blob).2.2
      blob_signature).1 = GPG_ERR_NO_ERROR
  swap
  · simp [hflags, h1, h2]
  by_cases h3 : (env.gpgme_op_verify
        (env.gpgme_data_new_from_mem (env.gpgme_data_new_from_mem w blob).2.2 blob_signature).2.2
        self.ctx
        (env.gpgme_data_new_from_mem (env.gpgme_data_new_from_mem w blob).2.2 blob_signature).2.1
        (env.gpgme_data_new_from_mem w blob).2.1).1 = GPG_ERR_NO_ERROR
  swap
  · simp [hflags, h1, h2, h3]
  simp only [hflags, h1, h2, h3, ne_eq, not_true_eq_false, if_false]
  split
  · simp
  · rename_i J hJ
    exact absurd ⟨J, h1, h2, h3, hJ⟩ hno

/-- C9 as it is written fails: a missing result record, a key file that does
not load, an import that adds nothing usable and a failed setup all set an
error of the one code `G_IO_ERROR_FAILED`, so the kind of the first is not
different from the kinds of the second and the third. -/
theorem error_kinds_counterexample :
    (jcat_engine_gpg_verify_data (scripted_env 0 1 none) 8 ready_engine 0 [1, 2] [3] 4).error
        = some ⟨.G_IO_ERROR .G_IO_ERROR_FAILED, "no result record from libgpgme"⟩
      ∧ (jcat_engine_gpg_add_public_key (scripted_env 0 1 none) ready_engine 0
          "keys/GPG-KEY-bad").error
        = some ⟨.G_IO_ERROR .G_IO_ERROR_FAILED,
            "failed to load keys/GPG-KEY-bad: General error"⟩
      ∧ (jcat_engine_gpg_add_public_key (scripted_env 0 0 none) ready_engine 0
          "keys/GPG-KEY-a").error
        = some ⟨.G_IO_ERROR .G_IO_ERROR_FAILED, "key import failed keys/GPG-KEY-a"⟩
      ∧ (jcat_engine_gpg_setup unwritable_env fresh_engine 0).error
        = some ⟨.G_IO_ERROR .G_IO_ERROR_FAILED, "failed to create /var/lib/jcat/gnupg"⟩
      ∧ ¬ (error_kind
            (jcat_engine_gpg_verify_data (scripted_env 0 1 none) 8 ready_engine 0 [1, 2] [3] 4)
            ≠ error_kind
              (jcat_engine_gpg_add_public_key (scripted_env 0 1 none) ready_engine 0
                "keys/GPG-KEY-bad")
          ∧ error_kind
            (jcat_engine_gpg_verify_data (scripted_env 0 1 none) 8 ready_engine 0 [1, 2] [3] 4)
            ≠ error_kind
              (jcat_engine_gpg_add_public_key (scripted_env 0 0 none) ready_engine 0
                "keys/GPG-KEY-a")) := by
  decide

/-- C9, amended: the failures of setup, of the importer and of
`jcat_engine_gpg_verify_data` have three error kinds. A flag set with the
client-certificate bit gives `G_IO_ERROR_NOT_SUPPORTED`; a rejected signature
of the result record gives `G_IO_ERROR_INVALID_DATA`; every other failure gives
`G_IO_ERROR_FAILED`: each failure of setup, each failure of the importer, and
in `jcat_engine_gpg_verify_data` a data buffer that cannot be created, a failed
`gpgme_op_verify` and a missing result record. The three kinds are pairwise
distinct, and no error is set on success. -/
theorem error_kinds (env : Env W) (use_client_cert : Nat) (self : JcatEngineGpg) (w : W)
    (filename : String) (blob blob_signature : List UInt8) (flags : Nat) :
    error_kind (jcat_engine_gpg_setup env self w)
        = (if (jcat_engine_gpg_setup env self w).ret.1 then none
           else some (.G_IO_ERROR .G_IO_ERROR_FAILED))
      ∧ error_kind (jcat_engine_gpg_add_public_key env self w filename)
        = (if (jcat_engine_gpg_add_public_key env self w filename).ret then none
           else some (.G_IO_ERROR .G_IO_ERROR_FAILED))
      ∧ (flags &&& use_client_cert ≠ 0 →
          (jcat_engine_gpg_verify_data env use_client_cert self w blob blob_signature
              flags).ret = none
            ∧ error_kind (jcat_engine_gpg_verify_data env use_client_cert self w blob
                blob_signature flags) = some (.G_IO_ERROR .G_IO_ERROR_NOT_SUPPORTED))
      ∧ (∀ J, flags &&& use_client_cert = 0 →
          OracleAnswers env self w blob blob_signature J →
          (∃ s ∈ J, (jcat_engine_gpg_check_signature s).1 = false) →
          (jcat_engine_gpg_verify_data env use_client_cert self w blob blob_signature
              flags).ret = none
            ∧ error_kind (jcat_engine_gpg_verify_data env use_client_cert self w blob
                blob_signature flags) = some (.G_IO_ERROR .G_IO_ERROR_INVALID_DATA))
      ∧ (∀ J, flags &&& use_client_cert = 0 →
          OracleAnswers env self w blob blob_signature J →
          (∀ s ∈ J, (jcat_engine_gpg_check_signature s).1 = true) →
          (jcat_engine_gpg_verify_data env use_client_cert self w blob blob_signature
              flags).ret.isSome = true
            ∧ error_kind (jcat_engine_gpg_verify_data env use_client_cert self w blob
                blob_signature flags) = none)
      ∧ (flags &&& use_client_cert = 0 →
          (¬ ∃ J, OracleAnswers env self w blob blob_signature J) →
          (jcat_engine_gpg_verify_data env use_client_cert self w blob blob_signature
              flags).ret = none
            ∧ error_kind (jcat_engine_gpg_verify_data env use_client_cert self w blob
                blob_signature flags) = some (.G_IO_ERROR .G_IO_ERROR_FAILED))
      ∧ GErrorCode.G_IO_ERROR .G_IO_ERROR_NOT_SUPPORTED
          ≠ GErrorCode.G_IO_ERROR .G_IO_ERROR_INVALID_DATA
      ∧ GErrorCode.G_IO_ERROR .G_IO_ERROR_NOT_SUPPORTED
          ≠ GErrorCode.G_IO_ERROR .G_IO_ERROR_FAILED
      ∧ GErrorCode.G_IO_ERROR .G_IO_ERROR_INVALID_DATA
          ≠ GErrorCode.G_IO_ERROR .G_IO_ERROR_FAILED := by
  refine ⟨setup_error_kind env self w, add_public_key_error_kind env self w filename, ?_, ?_,
    ?_, ?_, by decide, by decide, by decide⟩
  · intro hflags
    unfold jcat_engine_gpg_verify_data error_kind
    rw [if_pos hflags]
    exact ⟨rfl, rfl⟩
  · intro J hflags hans hrej
    obtain ⟨pre, s0, post, hJ, hpre, hs0⟩ := exists_first_rejected J hrej
    obtain ⟨hret, herr⟩ :=
      verify_data_of_answers env use_client_cert self w blob blob_signature flags J hflags hans
    obtain ⟨hc, he⟩ := verify_data_loop_rejected pre s0 post hpre hs0 0 ""
    rw [← hJ] at hc he
    have hsome : (jcat_engine_gpg_check_signature s0).2.isSome = true := by
      rw [check_signature_error_isSome, hs0]; rfl
    obtain ⟨e, hE⟩ := Option.isSome_iff_exists.mp hsome
    refine ⟨by rw [hret, hc]; rfl, ?_⟩
    unfold error_kind
    rw [herr, he, hE, Option.map_some', (check_signature_error_kind s0 e hE).1]
  · intro J hflags hans hacc
    obtain ⟨hret, herr⟩ :=
      verify_data_of_answers env use_client_cert self w blob blob_signature flags J hflags hans
    obtain ⟨hc, he⟩ := verify_data_loop_completes J hacc 0 ""
    refine ⟨by rw [hret, hc]; rfl, ?_⟩
    unfold error_kind
    rw [herr, he]
    rfl
  · intro hflags hno
    exact verify_data_error_kind_no_answer env use_client_cert self w blob blob_signature flags
      hflags hno
end Jcat
